import Mathlib

/-!
Verification development for the customs-declaration analytics engine
(`analysis20250722.py`, class `CustomsAnalyzer`).

The engine's data frame is modelled row-major: a `Row` holds one raw
declaration line, with every cell optional (`none` models a pandas null).
Column *presence* is modelled separately by `Cols`, because pandas raises a
`KeyError` when a missing column is accessed even though present columns may
be entirely null.  Fallible operations return `Except String`; a `KeyError`
on a missing column is modelled by `require`.

Korean source column names are romanized as Lean field names; the mapping is
given next to each field.  Real-valued quantities (scores, rates) are
modelled by `ℚ`.
-/

/-- Decidable equality for `Except`, used to state concrete evaluations. -/
instance {ε α : Type} [DecidableEq ε] [DecidableEq α] : DecidableEq (Except ε α) := fun x y =>
  match x, y with
  | .ok a, .ok b => if h : a = b then .isTrue (by rw [h]) else .isFalse (by simp [h])
  | .error e, .error f => if h : e = f then .isTrue (by rw [h]) else .isFalse (by simp [h])
  | .ok _, .error _ => .isFalse (by simp)
  | .error _, .ok _ => .isFalse (by simp)

/-- The non-null entries of a column, in order (pandas drops nulls in
`nunique` / `value_counts`). -/
def nonNulls {α : Type} (l : List (Option α)) : List α := l.filterMap id

/-- Worker for `firstDedup`: `seen` accumulates values already emitted. -/
def firstDedupAux {α : Type} [DecidableEq α] : List α → List α → List α
  | [], _ => []
  | a :: as, seen =>
    if a ∈ seen then firstDedupAux as seen else a :: firstDedupAux as (a :: seen)

/-- Distinct values of a list in first-appearance order, as produced by the
pandas `Series.unique` hash table.  Defined via a structurally recursive
worker so that concrete instances reduce inside the kernel. -/
def firstDedup {α : Type} [DecidableEq α] (l : List α) : List α := firstDedupAux l []

/-- Recursive characterization of `firstDedup`, used for proofs. -/
def firstDedupR {α : Type} [DecidableEq α] : List α → List α
  | [] => []
  | a :: as => a :: firstDedupR (as.filter (fun b => decide (b ≠ a)))
termination_by l => l.length
decreasing_by
  simp only [List.length_cons]
  exact Nat.lt_succ_of_le (List.length_filter_le _ _)

/-- Models `Series.nunique`: number of distinct non-null values. -/
def nunique {α : Type} [DecidableEq α] (cells : List (Option α)) : Nat :=
  (firstDedup (nonNulls cells)).length

/-- Comparison used to sort `(value, count)` pairs descending by count, as
`Series.value_counts` does. -/
def cntGE {α : Type} (p q : α × Nat) : Prop := q.2 ≤ p.2

instance {α : Type} : DecidableRel (@cntGE α) := fun p q => Nat.decLe q.2 p.2

instance {α : Type} : IsTotal (α × Nat) cntGE := ⟨fun p q => Nat.le_total q.2 p.2⟩

instance {α : Type} : IsTrans (α × Nat) cntGE := ⟨fun _ _ _ h h2 => Nat.le_trans h2 h⟩

/-- Models `Series.value_counts` over the non-null values `vs`: one `(value, count)`
pair per distinct value, sorted descending by count. -/
def valueCounts {α : Type} [DecidableEq α] (vs : List α) : List (α × Nat) :=
  List.insertionSort cntGE ((firstDedup vs).map (fun a => (a, vs.count a)))

/-- Models `value_counts().head(n).index`: the (at most) `n` values with the largest
raw occurrence counts. -/
def topCap {α : Type} [DecidableEq α] (vs : List α) (n : Nat) : List α :=
  ((valueCounts vs).take n).map Prod.fst

/-- Models `GroupBy.first` on one column: the first non-null value of the group. -/
def firstSome {α : Type} (l : List (Option α)) : Option α := l.findSome? id

/-- Models `Series.isin(top)` on an optional cell: a null is never in `top`. -/
def isinOpt {α : Type} [DecidableEq α] (top : List α) : Option α → Bool
  | some a => decide (a ∈ top)
  | none => false

/-- The most frequent value (`value_counts().index[0]`), or `""` when the
column has no non-null values, as in the rollups' main-preparer fields. -/
def mainOf (vs : List String) : String := ((valueCounts vs).head?.map Prod.fst).getD ""

/-! ### Dates and weekdays -/

/-- A calendar date (`pandas.Timestamp` truncated to a day). -/
structure Date where
  year : Nat
  month : Nat
  day : Nat
  deriving DecidableEq, Repr

def isLeapYear (y : Nat) : Bool := (y % 4 == 0 && y % 100 != 0) || y % 400 == 0

def daysInMonth (y m : Nat) : Nat :=
  if m = 2 then (if isLeapYear y then 29 else 28)
  else if m = 4 ∨ m = 6 ∨ m = 9 ∨ m = 11 then 30 else 31

/-- A date accepted by `pd.to_datetime` (an invalid month or day raises,
which the callers turn into a null). -/
def mkValidDate (y m d : Nat) : Option Date :=
  if 1 ≤ m ∧ m ≤ 12 ∧ 1 ≤ d ∧ d ≤ daysInMonth y m then some ⟨y, m, d⟩ else none

def digitVal (c : Char) : Nat := c.toNat - 48

def digitsToNat (cs : List Char) : Nat := cs.foldl (fun n c => n * 10 + digitVal c) 0

/-- Modelled from library behavior: `pd.to_datetime` on a single string,
restricted to the delimited and 8-digit formats this program feeds it
(`YYYY-MM-DD`, `YYYY/MM/DD`, `YYYYMMDD`); any other shape yields a null
(`errors="coerce"`) or, at the strict call sites, an exception that the
caller catches into a null — the same observable value either way. -/
def pd_to_datetime (s : String) : Option Date :=
  match s.data with
  | [y1, y2, y3, y4, '-', m1, m2, '-', d1, d2] =>
    if [y1, y2, y3, y4, m1, m2, d1, d2].all Char.isDigit then
      mkValidDate (digitsToNat [y1, y2, y3, y4]) (digitsToNat [m1, m2]) (digitsToNat [d1, d2])
    else none
  | [y1, y2, y3, y4, '/', m1, m2, '/', d1, d2] =>
    if [y1, y2, y3, y4, m1, m2, d1, d2].all Char.isDigit then
      mkValidDate (digitsToNat [y1, y2, y3, y4]) (digitsToNat [m1, m2]) (digitsToNat [d1, d2])
    else none
  | [y1, y2, y3, y4, m1, m2, d1, d2] =>
    if [y1, y2, y3, y4, m1, m2, d1, d2].all Char.isDigit then
      mkValidDate (digitsToNat [y1, y2, y3, y4]) (digitsToNat [m1, m2]) (digitsToNat [d1, d2])
    else none
  | _ => none

def pyWhitespace (c : Char) : Bool := c == ' ' || c == '\t' || c == '\n' || c == '\r'

/-- Python `str.strip()` (restricted to ASCII whitespace). -/
def pyStrip (s : String) : String :=
  ⟨((s.data.dropWhile pyWhitespace).reverse.dropWhile pyWhitespace).reverse⟩

/-- Models `CustomsAnalyzer.parse_date_string` (source lines 270-299): null in, null
out; strip; then dispatch on shape — 8 digits are recomposed as `YYYY-MM-DD`
and parsed strictly, a 10-character hyphenated or any slashed string is
parsed strictly, anything else falls through to the coercing parse.  Every
parse failure (exception or `NaT`) becomes a null. -/
def parse_date_string (v : Option String) : Option Date :=
  match v with
  | none => none
  | some s0 =>
    let s := pyStrip s0
    let cs := s.data
    if cs.length = 8 ∧ cs.all Char.isDigit then
      mkValidDate (digitsToNat (cs.take 4)) (digitsToNat ((cs.drop 4).take 2))
        (digitsToNat (cs.drop 6))
    else if cs.contains '-' ∧ cs.length = 10 then pd_to_datetime s
    else if cs.contains '/' then pd_to_datetime s
    else pd_to_datetime s

/-- Days since the civil epoch 1970-01-01 (standard civil-calendar
conversion); only used to derive the weekday. -/
def daysFromCivil (dt : Date) : Int :=
  let y : Int := if dt.month ≤ 2 then (dt.year : Int) - 1 else (dt.year : Int)
  let era : Int := (if 0 ≤ y then y else y - 399) / 400
  let yoe : Int := y - era * 400
  let doy : Int := (153 * (((dt.month : Int) + 9) % 12) + 2) / 5 + (dt.day : Int) - 1
  let doe : Int := yoe * 365 + yoe / 4 - yoe / 100 + doy
  era * 146097 + doe - 719468

/-- Models `Timestamp.dayofweek`: Monday = 0 … Sunday = 6. -/
def dayofweek (dt : Date) : Nat := ((daysFromCivil dt + 3) % 7).toNat

/-- The `dayofweek.map {0:'월요일', …}` lookup of `prepare_data`. -/
def weekday_korean (w : Nat) : Option String :=
  match w with
  | 0 => some "월요일"
  | 1 => some "화요일"
  | 2 => some "수요일"
  | 3 => some "목요일"
  | 4 => some "금요일"
  | 5 => some "토요일"
  | 6 => some "일요일"
  | _ => none

/-- Models `Series.dt.day_name()` for the derived English weekday column. -/
def weekday_english (w : Nat) : Option String :=
  match w with
  | 0 => some "Monday"
  | 1 => some "Tuesday"
  | 2 => some "Wednesday"
  | 3 => some "Thursday"
  | 4 => some "Friday"
  | 5 => some "Saturday"
  | 6 => some "Sunday"
  | _ => none

/-! ### Data model -/

/-- The seven complexity weights (`self.weights`). -/
structure Weights where
  lane_weight : ℚ
  spec_weight : ℚ
  requirement_weight : ℚ
  exemption_weight : ℚ
  fta_weight : ℚ
  transaction_weight : ℚ
  trader_weight : ℚ
  deriving DecidableEq, Repr

/-- The default weights set in `CustomsAnalyzer.__init__`. -/
def defaultWeights : Weights :=
  { lane_weight := 1
    spec_weight := 1/2
    requirement_weight := 10
    exemption_weight := 10
    fta_weight := 10
    transaction_weight := 5
    trader_weight := 5 }

/-- One raw declaration line.  Field ↔ source column:
`declNo`=신고번호, `author`=작성자, `importer`=납세자상호,
`forwarder`=운송주선인상호, `trader`=무역거래처상호, `lanes`=총란수,
`specs`=총규격수, `exemption`=관세감면구분, `originCert`=원산지증명유무,
`txnType`=거래구분, `csInspect`=C/S검사구분, `issuedDoc`=발급서류명,
`issuedDocSp`=발급 서류명, `reqDocCount`=요건확인서류수,
`suriDate`=수리일자, `singoDate`=신고일자, `inputDT`=입력일시; the last three
fields are the derived columns 날짜_기준, 요일, 요일_한글.  Declaration
identifiers are opaque keys compared only for equality, modelled as `Nat`. -/
structure Row where
  declNo : Option Nat := none
  author : Option String := none
  importer : Option String := none
  forwarder : Option String := none
  trader : Option String := none
  lanes : Option Nat := none
  specs : Option Nat := none
  exemption : Option String := none
  originCert : Option String := none
  txnType : Option String := none
  csInspect : Option String := none
  issuedDoc : Option String := none
  issuedDocSp : Option String := none
  reqDocCount : Option Nat := none
  suriDate : Option String := none
  singoDate : Option String := none
  inputDT : Option String := none
  dateBase : Option Date := none
  weekEng : Option String := none
  weekKor : Option String := none
  deriving DecidableEq, Repr

/-- Which columns exist in the data frame (same field names as `Row`). -/
structure Cols where
  declNo : Bool := false
  author : Bool := false
  importer : Bool := false
  forwarder : Bool := false
  trader : Bool := false
  lanes : Bool := false
  specs : Bool := false
  exemption : Bool := false
  originCert : Bool := false
  txnType : Bool := false
  csInspect : Bool := false
  issuedDoc : Bool := false
  issuedDocSp : Bool := false
  reqDocCount : Bool := false
  suriDate : Bool := false
  singoDate : Bool := false
  inputDT : Bool := false
  dateBase : Bool := false
  weekEng : Bool := false
  weekKor : Bool := false
  deriving DecidableEq, Repr

structure DataFrame where
  cols : Cols
  rows : List Row
  deriving DecidableEq, Repr

/-- Accessing a column that is not present raises a pandas `KeyError`. -/
def require (present : Bool) (name : String) : Except String Unit :=
  if present then .ok () else .error ("KeyError: " ++ name)

/-! ### `__init__` column pruning and `prepare_data` -/

/-- Large-input column pruning in `CustomsAnalyzer.__init__` (lines 153-164):
above 20000 rows the frame is projected onto the `essential_cols` allowlist,
keeping whichever of those columns are present.  Of the modelled columns,
every raw one except 발급서류명 is on the allowlist, so pruning drops
발급서류명 and the not-yet-created derived date columns. -/
def essentialPrune (df : DataFrame) : DataFrame :=
  if 20000 < df.rows.length then
    { df with
      cols := { df.cols with
        issuedDoc := false, dateBase := false, weekEng := false, weekKor := false } }
  else df

/-- Models `CustomsAnalyzer.prepare_data` (lines 178-268), date part: try 수리일자,
then 신고일자, then 입력일시, selecting the first candidate column with at
least one successfully parsed value.  The local `total_count` is assigned
only inside the 수리일자 branch (line 201) but is read by the debug prints of
the later branches (lines 221 and 237), so reaching either later branch
without a 수리일자 column raises a `NameError`.  On success the weekday
columns are derived from the chosen dates; otherwise both weekday columns are
created as all-null.  (The compatibility block of lines 262-268 only adds a
parsed copy of 신고일자 that nothing reads; it is not modelled.) -/
def prepare_data (df : DataFrame) : Except String DataFrame := do
  let c := df.cols
  let sParsed : List (Option Date) := df.rows.map (fun r => parse_date_string r.suriDate)
  let sOk : Bool := c.suriDate && decide (0 < (sParsed.filter Option.isSome).length)
  let totalCountDefined : Bool := c.suriDate
  let gTried : Bool := !sOk && c.singoDate
  if gTried && !totalCountDefined then
    Except.error "NameError: total_count referenced before assignment"
  else
  let gParsed : List (Option Date) := df.rows.map (fun r => parse_date_string r.singoDate)
  let gOk : Bool := gTried && decide (0 < (gParsed.filter Option.isSome).length)
  let iTried : Bool := !sOk && !gOk && c.inputDT
  if iTried && !totalCountDefined then
    Except.error "NameError: total_count referenced before assignment"
  else
  let iParsed : List (Option Date) := df.rows.map (fun r => r.inputDT.bind pd_to_datetime)
  let iOk : Bool := iTried && decide (0 < (iParsed.filter Option.isSome).length)
  let dateSuccess : Bool := sOk || gOk || iOk
  let base : List (Option Date) :=
    if sOk then sParsed else if gOk then gParsed
    else if iOk then iParsed else df.rows.map (fun _ => none)
  let rows2 : List Row :=
    if dateSuccess then
      (df.rows.zip base).map (fun p =>
        { p.1 with
          dateBase := p.2
          weekEng := p.2.bind (fun dt => weekday_english (dayofweek dt))
          weekKor := p.2.bind (fun dt => weekday_korean (dayofweek dt)) })
    else
      df.rows.map (fun r => { r with weekEng := none, weekKor := none })
  Except.ok
    { cols := { c with dateBase := dateSuccess, weekEng := true, weekKor := true }
      rows := rows2 }

/-! ### `calculate_complexity_score` -/

/-- The per-declaration aggregate built by the `groupby(신고번호).agg` call
(lines 316-334): take-first for lanes, specs, exemption and origin
certificate; count-of-distinct (`nunique`, which drops nulls) for
transaction type and trading partner; and for the requirement-document
indicator the first present of three alternative columns, counted as
non-null occurrences (발급서류명 variants) or take-first (요건확인서류수).
The source applies `.fillna(1)` to the two `nunique` columns afterwards
(lines 368, 372), but `nunique` never produces a null, so those counts stay
as computed — in particular `0` for a group whose values are all null. -/
structure ScoredGroup where
  lanes : Option Nat
  specs : Option Nat
  exemption : Option String
  originCert : Option String
  txnTypes : Nat
  traderTypes : Nat
  reqDocs : Nat
  deriving DecidableEq, Repr

def scoredGroup (c : Cols) (g : List Row) : ScoredGroup :=
  { lanes := firstSome (g.map Row.lanes)
    specs := firstSome (g.map Row.specs)
    exemption := firstSome (g.map Row.exemption)
    originCert := firstSome (g.map Row.originCert)
    txnTypes := (firstDedup (nonNulls (g.map Row.txnType))).length
    traderTypes := (firstDedup (nonNulls (g.map Row.trader))).length
    reqDocs :=
      if c.issuedDoc then (g.map Row.issuedDoc).countP Option.isSome
      else if c.issuedDocSp then (g.map Row.issuedDocSp).countP Option.isSome
      else if c.reqDocCount then (firstSome (g.map Row.reqDocCount)).getD 0
      else 0 }

/-- The exemption test of line 359: non-null and non-blank after `strip`. -/
def hasExemption (e : Option String) : Bool :=
  match e with
  | some s => decide (pyStrip s ≠ "")
  | none => false

/-- The seven weighted terms of lines 336-373, for one declaration.  Missing
lanes/specs/requirement values default to 0 via `fillna(0)`. -/
def row_score (w : Weights) (g : ScoredGroup) : ℚ :=
  ((g.lanes.getD 0 : ℚ) * w.lane_weight)
  + ((g.specs.getD 0 : ℚ) * w.spec_weight)
  + ((g.reqDocs : ℚ) * w.requirement_weight)
  + (if hasExemption g.exemption then w.exemption_weight else 0)
  + (if g.originCert = some "Y" then w.fta_weight else 0)
  + ((g.txnTypes : ℚ) * w.transaction_weight)
  + ((g.traderTypes : ℚ) * w.trader_weight)

/-- Models `groupby(신고번호)`: one group per distinct non-null identifier (group
keys sorted ascending, as pandas does), paired with that identifier's rows. -/
def groupRows (rows : List Row) : List (Nat × List Row) :=
  (List.insertionSort (fun i j : Nat => i ≤ j)
      (firstDedup (nonNulls (rows.map Row.declNo)))).map
    (fun i => (i, rows.filter (fun r => decide (r.declNo = some i))))

/-- The scale guard of lines 307-313: above 5000 distinct identifiers,
restrict to the rows whose identifier is among
`value_counts().head(5000).index`. -/
def cappedRows (df : DataFrame) : List Row :=
  let idCells := df.rows.map Row.declNo
  if 5000 < nunique idCells then
    let top := topCap (nonNulls idCells) 5000
    df.rows.filter (fun r => isinOpt top r.declNo)
  else df.rows

/-- The vectorized per-declaration score array (lines 336-373). -/
def declScores (c : Cols) (w : Weights) (rows : List Row) : List ℚ :=
  (groupRows rows).map (fun p => row_score w (scoredGroup c p.2))

/-- Models `np.mean(scores) if len(scores) > 0 else 0` (line 375), over the
scale-guarded subset. -/
def scoreVal (df : DataFrame) (w : Weights) : ℚ :=
  let scores := declScores df.cols w (cappedRows df)
  if 0 < scores.length then scores.sum / (scores.length : ℚ) else 0

/-- Models `CustomsAnalyzer.calculate_complexity_score` (lines 305-375).  The
`groupby` and the fixed part of `agg_dict` reference 신고번호, 총란수,
총규격수, 관세감면구분, 원산지증명유무, 거래구분 and 무역거래처상호
unconditionally, raising a `KeyError` when any is absent; the three
requirement-document columns are probed with presence guards. -/
def calculate_complexity_score (df : DataFrame) (w : Weights) : Except String ℚ := do
  let _ ← require df.cols.declNo "신고번호"
  let _ ← require df.cols.lanes "총란수"
  let _ ← require df.cols.specs "총규격수"
  let _ ← require df.cols.exemption "관세감면구분"
  let _ ← require df.cols.originCert "원산지증명유무"
  let _ ← require df.cols.txnType "거래구분"
  let _ ← require df.cols.trader "무역거래처상호"
  Except.ok (scoreVal df w)

/-! ### Shared rollup helpers -/

/-- Python `round(x, 1)`.  Modelled with Mathlib `round` (half-up); Python
uses half-even, which differs only at exact `.05` ties, on which nothing here
depends. -/
def round1 (q : ℚ) : ℚ := ((round (q * 10) : ℤ) : ℚ) / 10

/-- A percentage `k / n * 100`, guarded by `if n > 0 else 0` as at every
rate site of the rollups. -/
def pct (k n : Nat) : ℚ := if 0 < n then (k : ℚ) / (n : ℚ) * 100 else 0

/-- Models `groupby(신고번호).first().reset_index()`: one reduced row per distinct
identifier, each column reduced to its first non-null value. -/
def firstAgg (i : Nat) (g : List Row) : Row :=
  { declNo := some i
    author := firstSome (g.map Row.author)
    importer := firstSome (g.map Row.importer)
    forwarder := firstSome (g.map Row.forwarder)
    trader := firstSome (g.map Row.trader)
    lanes := firstSome (g.map Row.lanes)
    specs := firstSome (g.map Row.specs)
    exemption := firstSome (g.map Row.exemption)
    originCert := firstSome (g.map Row.originCert)
    txnType := firstSome (g.map Row.txnType)
    csInspect := firstSome (g.map Row.csInspect)
    issuedDoc := firstSome (g.map Row.issuedDoc)
    issuedDocSp := firstSome (g.map Row.issuedDocSp)
    reqDocCount := firstSome (g.map Row.reqDocCount)
    suriDate := firstSome (g.map Row.suriDate)
    singoDate := firstSome (g.map Row.singoDate)
    inputDT := firstSome (g.map Row.inputDT)
    dateBase := firstSome (g.map Row.dateBase)
    weekEng := firstSome (g.map Row.weekEng)
    weekKor := firstSome (g.map Row.weekKor) }

def declGrouped (rows : List Row) : List Row :=
  (groupRows rows).map (fun p => firstAgg p.1 p.2)

/-- Weekday pattern: among rows with a non-null 요일_한글 equal to `day`,
the number of distinct declaration identifiers; `{}.get(day, 0)` when the
요일_한글 column does not exist. -/
def weekdayCount (c : Cols) (rows : List Row) (day : String) : Nat :=
  if c.weekKor then
    nunique
      (((rows.filter (fun r => r.weekKor.isSome)).filter
          (fun r => decide (r.weekKor = some day))).map Row.declNo)
  else 0

/-- Models `result_df.sort_values(key, ascending=False)` applied only to a
non-empty result table. -/
def sortDescBy {β γ : Type} [DecidableEq β] [LinearOrder γ] (key : β → γ)
    (l : List β) : List β :=
  if l = [] then l else List.insertionSort (fun s t => key t ≤ key s) l

/-! ### `analyze_by_author` (preparer rollup) -/

/-- One row of the preparer rollup (dict of lines 454-476).  Field ↔ key:
`author`=작성자, `totalItems`=총처리건수, `uniqueDecls`=고유신고번호수,
`score`=복잡도점수, `totalLanes`=총란수합계, `totalSpecs`=총규격수합계,
`reqDeclCount`=수입요건신고번호수, `ftaRate`=FTA활용률,
`exemptionRate`=관세감면적용률, `txnTypeCount`=거래구분종류수,
`traderCount`=무역거래처수, `importerCount`=담당수입자수,
`avgItems`=평균품목수_신고서, `mon`…`fri`=월요일…금요일. -/
structure AuthorSummary where
  author : String
  totalItems : Nat
  uniqueDecls : Nat
  score : ℚ
  totalLanes : Nat
  totalSpecs : Nat
  reqDeclCount : Nat
  ftaRate : ℚ
  exemptionRate : ℚ
  txnTypeCount : Nat
  traderCount : Nat
  importerCount : Nat
  avgItems : ℚ
  mon : Nat
  tue : Nat
  wed : Nat
  thu : Nat
  fri : Nat
  deriving DecidableEq, Repr

/-- Models `valid_data`: rows whose grouping value is non-null and non-empty
(line 382). -/
def authorValidRows (df : DataFrame) : List Row :=
  df.rows.filter (fun r =>
    match r.author with
    | some s => decide (s ≠ "")
    | none => false)

/-- The entity scale guard of lines 384-391: above 50 distinct preparers,
keep only rows of the top 50 by raw row count. -/
def authorCapped (df : DataFrame) : List Row :=
  let vd := authorValidRows df
  if 50 < (firstDedup (nonNulls (vd.map Row.author))).length then
    let top := topCap (nonNulls (vd.map Row.author)) 50
    vd.filter (fun r => isinOpt top r.author)
  else vd

/-- The loop domain `valid_data['작성자'].unique()` over the guarded rows. -/
def authorEntities (df : DataFrame) : List String :=
  firstDedup (nonNulls ((authorCapped df).map Row.author))

/-- The requirement-document count of lines 410-425: distinct identifiers of
raw rows with a non-null 발급서류명/발급 서류명, or the number of reduced
rows with 요건확인서류수 non-null and positive, or 0 when none of the three
columns exists. -/
def authorReqCount (c : Cols) (adata dg : List Row) : Nat :=
  if c.issuedDoc then
    nunique ((adata.filter (fun r => r.issuedDoc.isSome)).map Row.declNo)
  else if c.issuedDocSp then
    nunique ((adata.filter (fun r => r.issuedDocSp.isSome)).map Row.declNo)
  else if c.reqDocCount then
    (dg.filter (fun r =>
      match r.reqDocCount with
      | some v => decide (0 < v)
      | none => false)).length
  else 0

/-- The pure field computations of one preparer's summary (lines 395-476),
given the already-computed complexity score. -/
def authorSummaryVal (c : Cols) (vd : List Row) (a : String)
    (score : ℚ) : AuthorSummary :=
  let adata := vd.filter (fun r => decide (r.author = some a))
  let totalItems := adata.length
  let dg := declGrouped adata
  let n := dg.length
  { author := a
    totalItems := totalItems
    uniqueDecls := n
    score := round1 score
    totalLanes := (dg.map (fun r => r.lanes.getD 0)).sum
    totalSpecs := (dg.map (fun r => r.specs.getD 0)).sum
    reqDeclCount := authorReqCount c adata dg
    ftaRate := round1 (pct (dg.filter (fun r => decide (r.originCert = some "Y"))).length n)
    exemptionRate := round1 (pct (dg.filter (fun r => hasExemption r.exemption)).length n)
    txnTypeCount := nunique (dg.map Row.txnType)
    traderCount := nunique (dg.map Row.trader)
    importerCount := nunique (dg.map Row.importer)
    avgItems := if 0 < n then round1 ((totalItems : ℚ) / (n : ℚ)) else 0
    mon := weekdayCount c adata "월요일"
    tue := weekdayCount c adata "화요일"
    wed := weekdayCount c adata "수요일"
    thu := weekdayCount c adata "목요일"
    fri := weekdayCount c adata "금요일" }

/-- One iteration of the preparer loop, with the column accesses that can
raise a `KeyError` in their source order: the `groupby` of line 400, the
scorer call of line 404, then lines 407, 408, 428, 432, 442, 443, 444. -/
def authorEntitySummary (df : DataFrame) (w : Weights) (vd : List Row)
    (a : String) : Except String AuthorSummary := do
  let c := df.cols
  let adata := vd.filter (fun r => decide (r.author = some a))
  let _ ← require c.declNo "신고번호"
  let score ← calculate_complexity_score { cols := c, rows := adata } w
  let _ ← require c.lanes "총란수"
  let _ ← require c.specs "총규격수"
  let _ ← require c.originCert "원산지증명유무"
  let _ ← require c.exemption "관세감면구분"
  let _ ← require c.txnType "거래구분"
  let _ ← require c.trader "무역거래처상호"
  let _ ← require c.importer "납세자상호"
  Except.ok (authorSummaryVal c vd a score)

/-- Models `CustomsAnalyzer.analyze_by_author` (lines 377-482): empty table when the
작성자 column is absent, else one summary per distinct preparer of the
guarded valid rows, sorted descending by complexity score. -/
def analyze_by_author (df : DataFrame) (w : Weights) :
    Except String (List AuthorSummary) := do
  if df.cols.author = false then
    Except.ok []
  else do
    let res ← (authorEntities df).mapM (authorEntitySummary df w (authorCapped df))
    Except.ok (sortDescBy AuthorSummary.score res)

/-! ### `analyze_by_importer` (importer rollup) -/

/-- One row of the importer rollup (dict of lines 567-589).  Field ↔ key:
`importer`=수입자, `mainAuthor`=주담당작성자, `authorDiversity`=담당작성자수,
`docTypes`=발급서류종류수, `reqRate`=수입요건비율, `ftaRate`=FTA활용률,
`exemptionRate`=관세감면활용률, `txnTypeCount`=거래구분다양성,
`traderCount`=무역거래처수; the remaining fields as in `AuthorSummary`. -/
structure ImporterSummary where
  importer : String
  totalItems : Nat
  uniqueDecls : Nat
  score : ℚ
  mainAuthor : String
  authorDiversity : Nat
  docTypes : Nat
  reqRate : ℚ
  ftaRate : ℚ
  exemptionRate : ℚ
  txnTypeCount : Nat
  traderCount : Nat
  avgItems : ℚ
  mon : Nat
  tue : Nat
  wed : Nat
  thu : Nat
  fri : Nat
  deriving DecidableEq, Repr

def importerValidRows (df : DataFrame) : List Row :=
  df.rows.filter (fun r =>
    match r.importer with
    | some s => decide (s ≠ "")
    | none => false)

/-- The entity scale guard of lines 491-497: above 100 distinct importers,
keep only rows of the top 100 by raw row count. -/
def importerCapped (df : DataFrame) : List Row :=
  let vd := importerValidRows df
  if 100 < (firstDedup (nonNulls (vd.map Row.importer))).length then
    let top := topCap (nonNulls (vd.map Row.importer)) 100
    vd.filter (fun r => isinOpt top r.importer)
  else vd

def importerEntities (df : DataFrame) : List String :=
  firstDedup (nonNulls ((importerCapped df).map Row.importer))

/-- Lines 518-540: distinct issued-document names among raw rows bearing
one, and the requirement rate over distinct identifiers of those rows
(`len(….unique())`, which counts a null identifier as a value, hence
`firstDedup` over the optional cells). -/
def importerDocTypes (c : Cols) (idata : List Row) (n : Nat) : Nat × ℚ :=
  if c.issuedDoc then
    ( nunique ((idata.filter (fun r => r.issuedDoc.isSome)).map Row.issuedDoc)
    , pct (firstDedup ((idata.filter (fun r => r.issuedDoc.isSome)).map Row.declNo)).length n )
  else if c.issuedDocSp then
    ( nunique ((idata.filter (fun r => r.issuedDocSp.isSome)).map Row.issuedDocSp)
    , pct (firstDedup ((idata.filter (fun r => r.issuedDocSp.isSome)).map Row.declNo)).length n )
  else (0, 0)

/-- The pure field computations of one importer's summary (lines 501-589).
The main preparer of line 513 is `value_counts` over the *raw* rows of this
importer, not over the declaration-deduplicated rows. -/
def importerSummaryVal (c : Cols) (vd : List Row) (e : String)
    (score : ℚ) : ImporterSummary :=
  let idata := vd.filter (fun r => decide (r.importer = some e))
  let totalItems := idata.length
  let dg := declGrouped idata
  let n := dg.length
  let rawAuthors := nonNulls (idata.map Row.author)
  let docPair := importerDocTypes c idata n
  { importer := e
    totalItems := totalItems
    uniqueDecls := n
    score := round1 score
    mainAuthor := mainOf rawAuthors
    authorDiversity := (valueCounts rawAuthors).length
    docTypes := docPair.1
    reqRate := round1 docPair.2
    ftaRate := round1 (pct (dg.filter (fun r => decide (r.originCert = some "Y"))).length n)
    exemptionRate := round1 (pct (dg.filter (fun r => hasExemption r.exemption)).length n)
    txnTypeCount := nunique (dg.map Row.txnType)
    traderCount := nunique (dg.map Row.trader)
    avgItems := if 0 < n then round1 ((totalItems : ℚ) / (n : ℚ)) else 0
    mon := weekdayCount c idata "월요일"
    tue := weekdayCount c idata "화요일"
    wed := weekdayCount c idata "수요일"
    thu := weekdayCount c idata "목요일"
    fri := weekdayCount c idata "금요일" }

/-- One iteration of the importer loop; fallible accesses in source order:
`groupby` (line 506), scorer (line 510), 작성자 (line 513), then lines 543,
546, 556, 557. -/
def importerEntitySummary (df : DataFrame) (w : Weights) (vd : List Row)
    (e : String) : Except String ImporterSummary := do
  let c := df.cols
  let idata := vd.filter (fun r => decide (r.importer = some e))
  let _ ← require c.declNo "신고번호"
  let score ← calculate_complexity_score { cols := c, rows := idata } w
  let _ ← require c.author "작성자"
  let _ ← require c.originCert "원산지증명유무"
  let _ ← require c.exemption "관세감면구분"
  let _ ← require c.txnType "거래구분"
  let _ ← require c.trader "무역거래처상호"
  Except.ok (importerSummaryVal c vd e score)

/-- Models `CustomsAnalyzer.analyze_by_importer` (lines 484-595): empty table when
납세자상호 is absent, else one summary per distinct importer of the guarded
valid rows, sorted descending by raw row count. -/
def analyze_by_importer (df : DataFrame) (w : Weights) :
    Except String (List ImporterSummary) := do
  if df.cols.importer = false then
    Except.ok []
  else do
    let res ← (importerEntities df).mapM (importerEntitySummary df w (importerCapped df))
    Except.ok (sortDescBy ImporterSummary.totalItems res)

/-! ### `analyze_by_forwarder` (forwarder rollup) -/

/-- One row of the forwarder rollup (dict of lines 663-686).  Field ↔ key:
`forwarder`=운송주선인, `mainImporter`=주요수입자, `importerCount`=연결수입자수,
`traderCount`=연결무역거래처수, `avgLanes`=평균란수_신고서,
`avgSpecs`=평균규격수_신고서; the rest as in the other summaries. -/
structure ForwarderSummary where
  forwarder : String
  totalItems : Nat
  uniqueDecls : Nat
  score : ℚ
  mainAuthor : String
  authorDiversity : Nat
  mainImporter : String
  importerCount : Nat
  traderCount : Nat
  avgLanes : ℚ
  avgSpecs : ℚ
  ftaRate : ℚ
  exemptionRate : ℚ
  avgItems : ℚ
  mon : Nat
  tue : Nat
  wed : Nat
  thu : Nat
  fri : Nat
  deriving DecidableEq, Repr

def forwarderValidRows (df : DataFrame) : List Row :=
  df.rows.filter (fun r =>
    match r.forwarder with
    | some s => decide (s ≠ "")
    | none => false)

/-- The entity scale guard of lines 604-610: above 50 distinct forwarders,
keep only rows of the top 50 by raw row count. -/
def forwarderCapped (df : DataFrame) : List Row :=
  let vd := forwarderValidRows df
  if 50 < (firstDedup (nonNulls (vd.map Row.forwarder))).length then
    let top := topCap (nonNulls (vd.map Row.forwarder)) 50
    vd.filter (fun r => isinOpt top r.forwarder)
  else vd

def forwarderEntities (df : DataFrame) : List String :=
  firstDedup (nonNulls ((forwarderCapped df).map Row.forwarder))

/-- The declaration-deduplicated preparer multiset a forwarder's main
preparer is ranked over (line 626). -/
def forwarderDedupAuthors (fdata : List Row) : List String :=
  nonNulls ((declGrouped fdata).map Row.author)

/-- The pure field computations of one forwarder's summary (lines 614-686).
Unlike the importer rollup, the main preparer and main importer of lines
626-633 are ranked over the declaration-deduplicated rows.  `mean()` of an
empty column is a pandas `NaN`; it is modelled as 0, and no claim depends on
that value. -/
def forwarderSummaryVal (c : Cols) (vd : List Row) (e : String)
    (score : ℚ) : ForwarderSummary :=
  let fdata := vd.filter (fun r => decide (r.forwarder = some e))
  let totalItems := fdata.length
  let dg := declGrouped fdata
  let n := dg.length
  let dgAuthors := forwarderDedupAuthors fdata
  let dgImporters := nonNulls (dg.map Row.importer)
  { forwarder := e
    totalItems := totalItems
    uniqueDecls := n
    score := round1 score
    mainAuthor := mainOf dgAuthors
    authorDiversity := (valueCounts dgAuthors).length
    mainImporter := mainOf dgImporters
    importerCount := (valueCounts dgImporters).length
    traderCount := nunique (dg.map Row.trader)
    avgLanes := if 0 < n then round1 (((dg.map (fun r => r.lanes.getD 0)).sum : ℚ) / (n : ℚ)) else 0
    avgSpecs := if 0 < n then round1 (((dg.map (fun r => r.specs.getD 0)).sum : ℚ) / (n : ℚ)) else 0
    ftaRate := round1 (pct (dg.filter (fun r => decide (r.originCert = some "Y"))).length n)
    exemptionRate := round1 (pct (dg.filter (fun r => hasExemption r.exemption)).length n)
    avgItems := if 0 < n then round1 ((totalItems : ℚ) / (n : ℚ)) else 0
    mon := weekdayCount c fdata "월요일"
    tue := weekdayCount c fdata "화요일"
    wed := weekdayCount c fdata "수요일"
    thu := weekdayCount c fdata "목요일"
    fri := weekdayCount c fdata "금요일" }

/-- One iteration of the forwarder loop; fallible accesses in source order:
`groupby` (line 619), scorer (line 623), then lines 626, 631, 636, 639, 640,
643, 646. -/
def forwarderEntitySummary (df : DataFrame) (w : Weights) (vd : List Row)
    (e : String) : Except String ForwarderSummary := do
  let c := df.cols
  let fdata := vd.filter (fun r => decide (r.forwarder = some e))
  let _ ← require c.declNo "신고번호"
  let score ← calculate_complexity_score { cols := c, rows := fdata } w
  let _ ← require c.author "작성자"
  let _ ← require c.importer "납세자상호"
  let _ ← require c.trader "무역거래처상호"
  let _ ← require c.lanes "총란수"
  let _ ← require c.specs "총규격수"
  let _ ← require c.originCert "원산지증명유무"
  let _ ← require c.exemption "관세감면구분"
  Except.ok (forwarderSummaryVal c vd e score)

/-- Models `CustomsAnalyzer.analyze_by_forwarder` (lines 597-692): empty table when
운송주선인상호 is absent, else one summary per distinct forwarder of the
guarded valid rows, sorted descending by raw row count. -/
def analyze_by_forwarder (df : DataFrame) (w : Weights) :
    Except String (List ForwarderSummary) := do
  if df.cols.forwarder = false then
    Except.ok []
  else do
    let res ← (forwarderEntities df).mapM (forwarderEntitySummary df w (forwarderCapped df))
    Except.ok (sortDescBy ForwarderSummary.totalItems res)

/-! ### `analyze_cs_inspection` (inspection classifier) -/

structure CsRow where
  code : String
  declCount : Nat
  label : String
  deriving DecidableEq, Repr

/-- The scalar stats block (lines 722-727): 총신고번호수, 검사구분종류,
가장많은검사, 무검사율. -/
structure CsStats where
  totalDecls : Nat
  codeKinds : Nat
  topLabel : String
  noInspectionRate : ℚ
  deriving DecidableEq, Repr

/-- The fixed code-to-label lookup of lines 710-718, with `fillna('기타')`. -/
def inspection_label (c : String) : String :=
  if c = "Y" then "세관검사"
  else if c = "F" then "협엄검사"
  else if c = "N" then "무검사"
  else if c = "C" then "서류검사"
  else if c = "S" then "표본검사"
  else "기타"

/-- Rows with a non-null inspection code (line 699). -/
def csValidRows (df : DataFrame) : List Row :=
  df.rows.filter (fun r => r.csInspect.isSome)

/-- Models `CustomsAnalyzer.analyze_cs_inspection` (lines 694-729): `([], {})` when
the C/S검사구분 column is absent; otherwise deduplicate the valid rows to one
per declaration identifier (take-first), count declarations per code sorted
descending, and derive the scalar stats. -/
def analyze_cs_inspection (df : DataFrame) :
    Except String (List CsRow × Option CsStats) := do
  if df.cols.csInspect = false then
    Except.ok ([], none)
  else do
    let valid := csValidRows df
    let _ ← require df.cols.declNo "신고번호"
    let uniq := declGrouped valid
    let codes := nonNulls (uniq.map Row.csInspect)
    let tbl := valueCounts codes
    let rows := tbl.map (fun p =>
      { code := p.1, declCount := p.2, label := inspection_label p.1 })
    let total := uniq.length
    let nCount := ((tbl.filter (fun p => decide (p.1 = "N"))).map Prod.snd).sum
    let stats : CsStats :=
      { totalDecls := total
        codeKinds := tbl.length
        topLabel := ((rows.head?.map CsRow.label)).getD ""
        noInspectionRate :=
          if 0 < total then round1 ((nCount : ℚ) / (total : ℚ) * 100) else 0 }
    Except.ok (rows, some stats)

/-! ### Fully-evaluated rollup tables

The pure values each rollup returns when every referenced column is present;
the evaluation lemmas below identify the `Except`-typed rollups with these. -/

def authorTable (df : DataFrame) (w : Weights) : List AuthorSummary :=
  sortDescBy AuthorSummary.score ((authorEntities df).map (fun a =>
    authorSummaryVal df.cols (authorCapped df) a
      (scoreVal
        { cols := df.cols
          rows := (authorCapped df).filter (fun r => decide (r.author = some a)) } w)))

def importerTable (df : DataFrame) (w : Weights) : List ImporterSummary :=
  sortDescBy ImporterSummary.totalItems ((importerEntities df).map (fun e =>
    importerSummaryVal df.cols (importerCapped df) e
      (scoreVal
        { cols := df.cols
          rows := (importerCapped df).filter (fun r => decide (r.importer = some e)) } w)))

def forwarderTable (df : DataFrame) (w : Weights) : List ForwarderSummary :=
  sortDescBy ForwarderSummary.totalItems ((forwarderEntities df).map (fun e =>
    forwarderSummaryVal df.cols (forwarderCapped df) e
      (scoreVal
        { cols := df.cols
          rows := (forwarderCapped df).filter (fun r => decide (r.forwarder = some e)) } w)))

/-! ### Concrete data frames used in witnesses and counterexamples -/

/-- A frame schema with every modelled column present. -/
def allCols : Cols :=
  { declNo := true, author := true, importer := true, forwarder := true
    trader := true, lanes := true, specs := true, exemption := true
    originCert := true, txnType := true, csInspect := true, issuedDoc := true
    issuedDocSp := true, reqDocCount := true, suriDate := true
    singoDate := true, inputDT := true, dateBase := true, weekEng := true
    weekKor := true }

/-- One declaration, one line, with no transaction-type and no
trading-partner data. -/
def C1df : DataFrame :=
  { cols := allCols, rows := [{ declNo := some 1, lanes := some 1 }] }

/-- A frame with a 신고일자 column but no 수리일자 column. -/
def C2df : DataFrame :=
  { cols := { singoDate := true }, rows := [{ singoDate := some "20240102" }] }

/-- All scorer columns but 무역거래처상호, with one valid preparer row. -/
def C3df : DataFrame :=
  { cols :=
      { declNo := true, author := true, importer := true, lanes := true
        specs := true, exemption := true, originCert := true, txnType := true }
    rows := [{ declNo := some 1, author := some "kim", importer := some "I"
               lanes := some 1 }] }

/-- The seven scorer columns present, the requirement-document columns all
absent. -/
def C3wdf : DataFrame :=
  { cols :=
      { declNo := true, lanes := true, specs := true, exemption := true
        originCert := true, txnType := true, trader := true }
    rows := [{ declNo := some 1, lanes := some 2 }] }

/-- 작성자 entirely absent while the importer dimension has valid data. -/
def C4df : DataFrame :=
  { cols :=
      { declNo := true, importer := true, lanes := true, specs := true
        exemption := true, originCert := true, txnType := true, trader := true }
    rows := [{ declNo := some 1, importer := some "I", lanes := some 1 }] }

/-- A frame missing all four grouping columns. -/
def C4wdf : DataFrame := { cols := {}, rows := [] }

/-- One importer with declaration 1 split over three lines by preparer A and
declarations 2 and 3 with one line each by preparer B. -/
def C5df : DataFrame :=
  { cols := allCols
    rows :=
      [ { declNo := some 1, author := some "A", importer := some "I" }
      , { declNo := some 1, author := some "A", importer := some "I" }
      , { declNo := some 1, author := some "A", importer := some "I" }
      , { declNo := some 2, author := some "B", importer := some "I" }
      , { declNo := some 3, author := some "B", importer := some "I" } ] }

/-- A small two-declaration frame with every column present. -/
def smallDf : DataFrame :=
  { cols := allCols
    rows := [{ declNo := some 1, lanes := some 1 }, { declNo := some 2, specs := some 3 }] }

/-- 5001 distinct declaration identifiers, one line each. -/
def C7df : DataFrame :=
  { cols := allCols
    rows := (List.range 5001).map (fun i => { declNo := some i }) }

/-- 101 lines with 51 distinct preparers, 101 distinct importers and 51
distinct forwarders. -/
def C8df : DataFrame :=
  { cols := allCols
    rows := (List.range 101).map (fun i =>
      { declNo := some i
        author := some (Char.ofNat (65 + i % 51)).toString
        importer := some (Char.ofNat (200 + i)).toString
        forwarder := some (Char.ofNat (300 + i % 51)).toString
        lanes := some 1 }) }

/-- One declaration with inspection code N. -/
def C10df : DataFrame :=
  { cols := { declNo := true, csInspect := true }
    rows := [{ declNo := some 1, csInspect := some "N" }] }

/-! ## Lemmas about the list helpers -/

theorem firstDedupAux_eq {α : Type} [DecidableEq α] (as seen : List α) :
    firstDedupAux as seen = firstDedupR (as.filter (fun b => decide (b ∉ seen))) := by
  induction as generalizing seen with
  | nil => simp [firstDedupAux, firstDedupR]
  | cons a as ih =>
    by_cases h : a ∈ seen
    · rw [firstDedupAux, if_pos h, List.filter_cons_of_neg (by simp [h]), ih]
    · rw [firstDedupAux, if_neg h, List.filter_cons_of_pos (by simp [h]), firstDedupR, ih]
      have comm : (as.filter (fun b => decide (b ∉ seen))).filter (fun b => decide (b ≠ a))
          = as.filter (fun b => decide (b ∉ a :: seen)) := by
        rw [List.filter_filter]
        refine List.filter_congr (fun b _ => ?_)
        rw [← Bool.decide_and]
        exact decide_eq_decide.mpr (by simp [List.mem_cons, not_or])
      rw [comm]

theorem firstDedup_eq {α : Type} [DecidableEq α] (l : List α) :
    firstDedup l = firstDedupR l := by
  rw [firstDedup, firstDedupAux_eq]
  congr 1
  exact List.filter_eq_self.mpr (fun b _ => by simp)

theorem firstDedupR_mem {α : Type} [DecidableEq α] {b : α} {l : List α} :
    b ∈ firstDedupR l ↔ b ∈ l := by
  induction l using firstDedupR.induct with
  | case1 => simp [firstDedupR]
  | case2 a as ih =>
    rw [firstDedupR]
    by_cases hb : b = a
    · subst hb; simp
    · simp only [List.mem_cons, ih, List.mem_filter, decide_eq_true_eq, hb, false_or]
      constructor
      · rintro ⟨h, _⟩; exact h
      · intro h; exact ⟨h, hb⟩

theorem firstDedupR_nodup {α : Type} [DecidableEq α] (l : List α) :
    (firstDedupR l).Nodup := by
  induction l using firstDedupR.induct with
  | case1 => simp [firstDedupR]
  | case2 a as ih =>
    rw [firstDedupR, List.nodup_cons]
    refine ⟨fun h => ?_, ih⟩
    have := firstDedupR_mem.1 h
    simp at this

theorem firstDedupR_eq_self {α : Type} [DecidableEq α] {l : List α} (h : l.Nodup) :
    firstDedupR l = l := by
  induction l using firstDedupR.induct with
  | case1 => simp [firstDedupR]
  | case2 a as ih =>
    rw [List.nodup_cons] at h
    have hf : as.filter (fun b => decide (b ≠ a)) = as :=
      List.filter_eq_self.mpr (fun b hb => by
        simp only [decide_eq_true_eq]
        rintro rfl
        exact h.1 hb)
    rw [firstDedupR]
    rw [hf] at ih ⊢
    exact congrArg (a :: ·) (ih h.2)

theorem firstDedupR_filter {α : Type} [DecidableEq α] (p : α → Bool) (l : List α) :
    firstDedupR (l.filter p) = (firstDedupR l).filter p := by
  induction l using firstDedupR.induct with
  | case1 => simp [firstDedupR]
  | case2 a as ih =>
    by_cases hp : p a
    · rw [List.filter_cons_of_pos hp, firstDedupR, firstDedupR,
        List.filter_cons_of_pos hp]
      have comm : (as.filter p).filter (fun b => decide (b ≠ a))
          = (as.filter (fun b => decide (b ≠ a))).filter p := by
        rw [List.filter_filter, List.filter_filter]
        exact List.filter_congr (fun b _ => Bool.and_comm _ _)
      rw [comm, ih]
    · rw [List.filter_cons_of_neg hp, firstDedupR, List.filter_cons_of_neg hp]
      have h2 : as.filter p = (as.filter (fun b => decide (b ≠ a))).filter p := by
        rw [List.filter_filter]
        refine List.filter_congr (fun b _ => ?_)
        by_cases hba : b = a
        · subst hba
          simp [hp]
        · simp [hba]
      rw [h2, ih]

theorem mem_firstDedup {α : Type} [DecidableEq α] {b : α} {l : List α} :
    b ∈ firstDedup l ↔ b ∈ l := by
  rw [firstDedup_eq]; exact firstDedupR_mem

theorem firstDedup_nodup {α : Type} [DecidableEq α] (l : List α) :
    (firstDedup l).Nodup := by
  rw [firstDedup_eq]; exact firstDedupR_nodup l

theorem firstDedup_eq_self {α : Type} [DecidableEq α] {l : List α} (h : l.Nodup) :
    firstDedup l = l := by
  rw [firstDedup_eq]; exact firstDedupR_eq_self h

theorem firstDedup_filter {α : Type} [DecidableEq α] (p : α → Bool) (l : List α) :
    firstDedup (l.filter p) = (firstDedup l).filter p := by
  rw [firstDedup_eq, firstDedup_eq]; exact firstDedupR_filter p l

theorem firstDedup_ne_nil {α : Type} [DecidableEq α] {l : List α} (h : l ≠ []) :
    firstDedup l ≠ [] := by
  rw [firstDedup_eq]
  cases l with
  | nil => exact absurd rfl h
  | cons a as => rw [firstDedupR]; simp

theorem length_eq_count_add_filter {α : Type} [DecidableEq α] (a : α) (l : List α) :
    l.length = l.count a + (l.filter (fun b => decide (b ≠ a))).length := by
  induction l with
  | nil => rfl
  | cons b bs ih =>
    by_cases hb : b = a
    · subst hb
      rw [List.length_cons, List.count_cons_self, List.filter_cons_of_neg (by simp)]
      omega
    · rw [List.length_cons, List.count_cons_of_ne (fun h => hb h.symm),
        List.filter_cons_of_pos (by simp [hb]), List.length_cons]
      omega

theorem firstDedup_sum_count {α : Type} [DecidableEq α] (l : List α) :
    ((firstDedup l).map (fun a => l.count a)).sum = l.length := by
  rw [firstDedup_eq]
  induction l using firstDedupR.induct with
  | case1 => simp [firstDedupR]
  | case2 a as ih =>
    rw [firstDedupR, List.map_cons, List.sum_cons, List.count_cons_self]
    have hmap : (firstDedupR (as.filter (fun b => decide (b ≠ a)))).map
          (fun b => (a :: as).count b)
        = (firstDedupR (as.filter (fun b => decide (b ≠ a)))).map
            (fun b => (as.filter (fun b2 => decide (b2 ≠ a))).count b) := by
      refine List.map_congr_left (fun b hb => ?_)
      have hmem := firstDedupR_mem.1 hb
      rw [List.mem_filter, decide_eq_true_eq] at hmem
      rw [List.count_cons_of_ne hmem.2, List.count_filter (by simp [hmem.2])]
    rw [hmap, ih]
    have hsplit := length_eq_count_add_filter a as
    rw [List.length_cons]
    omega

theorem nonNulls_map_some {α : Type} (l : List α) : nonNulls (l.map some) = l := by
  simp [nonNulls, List.filterMap_map, Function.comp]

theorem mem_nonNulls {α : Type} {a : α} {l : List (Option α)} :
    a ∈ nonNulls l ↔ some a ∈ l := by
  simp [nonNulls, List.mem_filterMap]

theorem nonNulls_length_all_some {α : Type} {l : List (Option α)}
    (h : ∀ o ∈ l, o.isSome) : (nonNulls l).length = l.length := by
  induction l with
  | nil => rfl
  | cons o os ih =>
    cases o with
    | none =>
      have := h none (List.mem_cons_self _ _)
      simp at this
    | some a =>
      have ht : ∀ o ∈ os, o.isSome := fun o ho => h o (List.mem_cons_of_mem _ ho)
      simp only [nonNulls, List.filterMap_cons, id, List.length_cons] at ih ⊢
      rw [ih ht]

theorem nonNulls_filter_match {α : Type} (p : α → Bool) (l : List (Option α)) :
    nonNulls (l.filter (fun o => match o with | some a => p a | none => false))
      = (nonNulls l).filter p := by
  induction l with
  | nil => rfl
  | cons o os ih =>
    cases o with
    | none => simpa [nonNulls] using ih
    | some a =>
      by_cases hp : p a
      · simpa [nonNulls, hp] using ih
      · simpa [nonNulls, hp] using ih

theorem map_filter_opt {β α : Type} (f : β → Option α) (p : α → Bool) (l : List β) :
    (l.filter (fun r => match f r with | some a => p a | none => false)).map f
      = (l.map f).filter (fun o => match o with | some a => p a | none => false) := by
  induction l with
  | nil => rfl
  | cons r rs ih =>
    cases hf : f r with
    | none => simpa [hf] using ih
    | some a =>
      by_cases hp : p a
      · simpa [hf, hp] using ih
      · simpa [hf, hp] using ih

/-! ### `valueCounts` and `topCap` -/

theorem valueCounts_perm {α : Type} [DecidableEq α] (vs : List α) :
    (valueCounts vs).Perm ((firstDedup vs).map (fun a => (a, vs.count a))) :=
  List.perm_insertionSort _ _

theorem valueCounts_sorted {α : Type} [DecidableEq α] (vs : List α) :
    List.Sorted cntGE (valueCounts vs) :=
  List.sorted_insertionSort _ _

theorem mem_valueCounts {α : Type} [DecidableEq α] {vs : List α} {p : α × Nat} :
    p ∈ valueCounts vs ↔ p.1 ∈ vs ∧ p.2 = vs.count p.1 := by
  rw [(valueCounts_perm vs).mem_iff, List.mem_map]
  constructor
  · rintro ⟨a, ha, rfl⟩
    exact ⟨mem_firstDedup.1 ha, rfl⟩
  · rintro ⟨h1, h2⟩
    refine ⟨p.1, mem_firstDedup.2 h1, ?_⟩
    obtain ⟨x, y⟩ := p
    simp only at h2
    simp [h2]

theorem valueCounts_length {α : Type} [DecidableEq α] (vs : List α) :
    (valueCounts vs).length = (firstDedup vs).length := by
  rw [(valueCounts_perm vs).length_eq, List.length_map]

theorem valueCounts_fst_perm {α : Type} [DecidableEq α] (vs : List α) :
    ((valueCounts vs).map Prod.fst).Perm (firstDedup vs) := by
  have h := (valueCounts_perm vs).map Prod.fst
  rw [List.map_map] at h
  have hc : (Prod.fst ∘ fun a : α => (a, vs.count a)) = id := rfl
  rw [hc, List.map_id] at h
  exact h

theorem valueCounts_fst_nodup {α : Type} [DecidableEq α] (vs : List α) :
    ((valueCounts vs).map Prod.fst).Nodup :=
  ((valueCounts_fst_perm vs).nodup_iff).2 (firstDedup_nodup vs)

theorem valueCounts_ne_nil {α : Type} [DecidableEq α] {vs : List α} (h : vs ≠ []) :
    valueCounts vs ≠ [] := by
  intro hc
  have hl := congrArg List.length hc
  rw [valueCounts_length] at hl
  exact firstDedup_ne_nil h (List.length_eq_zero.mp hl)

theorem valueCounts_head_max {α : Type} [DecidableEq α] {vs : List α} (h : vs ≠ []) :
    ∃ p, (valueCounts vs).head? = some p ∧ p.1 ∈ vs ∧ p.2 = vs.count p.1
      ∧ ∀ a, vs.count a ≤ vs.count p.1 := by
  cases hvc : valueCounts vs with
  | nil => exact absurd hvc (valueCounts_ne_nil h)
  | cons p t =>
    have hpm : p ∈ valueCounts vs := hvc ▸ List.mem_cons_self p t
    have hp := mem_valueCounts.1 hpm
    refine ⟨p, rfl, hp.1, hp.2, fun a => ?_⟩
    by_cases ha : a ∈ vs
    · have haM : (a, vs.count a) ∈ valueCounts vs := mem_valueCounts.2 ⟨ha, rfl⟩
      rw [hvc, List.mem_cons] at haM
      rcases haM with he | ht
      · have : vs.count a = p.2 := congrArg Prod.snd he
        rw [this, ← hp.2]
      · have hs := valueCounts_sorted vs
        rw [hvc, List.sorted_cons] at hs
        have hle : (a, vs.count a).2 ≤ p.2 := hs.1 _ ht
        rw [← hp.2]
        exact hle
    · rw [List.count_eq_zero_of_not_mem ha]
      exact Nat.zero_le _

theorem topCap_subset {α : Type} [DecidableEq α] {vs : List α} {n : Nat} {a : α}
    (h : a ∈ topCap vs n) : a ∈ vs := by
  rw [topCap] at h
  rcases List.mem_map.1 h with ⟨p, hp, rfl⟩
  exact (mem_valueCounts.1 (List.mem_of_mem_take hp)).1

theorem topCap_length {α : Type} [DecidableEq α] (vs : List α) (n : Nat)
    (h : n ≤ (firstDedup vs).length) : (topCap vs n).length = n := by
  rw [topCap, List.length_map, List.length_take, valueCounts_length]
  exact Nat.min_eq_left h

theorem topCap_nodup {α : Type} [DecidableEq α] (vs : List α) (n : Nat) :
    (topCap vs n).Nodup := by
  have hsub : (topCap vs n).Sublist ((valueCounts vs).map Prod.fst) :=
    (List.take_sublist n _).map Prod.fst
  exact List.Nodup.sublist hsub (valueCounts_fst_nodup vs)

theorem topCap_dominates {α : Type} [DecidableEq α] {vs : List α} {n : Nat} {a b : α}
    (ha : a ∈ topCap vs n) (hb : b ∈ vs) (hnb : b ∉ topCap vs n) :
    vs.count b ≤ vs.count a := by
  rw [topCap] at ha
  rcases List.mem_map.1 ha with ⟨p, hp, rfl⟩
  have hpc : p.2 = vs.count p.1 := (mem_valueCounts.1 (List.mem_of_mem_take hp)).2
  have hbm : (b, vs.count b) ∈ valueCounts vs := mem_valueCounts.2 ⟨hb, rfl⟩
  rw [← List.take_append_drop n (valueCounts vs), List.mem_append] at hbm
  rcases hbm with hbt | hbd
  · exact absurd (List.mem_map.2 ⟨_, hbt, rfl⟩) hnb
  · have hs : List.Pairwise cntGE (valueCounts vs) := valueCounts_sorted vs
    rw [← List.take_append_drop n (valueCounts vs)] at hs
    have hge : cntGE p (b, vs.count b) := (List.pairwise_append.1 hs).2.2 p hp _ hbd
    have hle : vs.count b ≤ p.2 := hge
    rw [hpc] at hle
    exact hle

theorem filter_mem_topCap_perm {α : Type} [DecidableEq α] (vs : List α) (n : Nat) :
    ((firstDedup vs).filter (fun a => decide (a ∈ topCap vs n))).Perm (topCap vs n) := by
  rw [List.perm_ext_iff_of_nodup (List.Nodup.filter _ (firstDedup_nodup vs))
    (topCap_nodup vs n)]
  intro a
  rw [List.mem_filter, decide_eq_true_eq, mem_firstDedup]
  constructor
  · rintro ⟨_, h⟩
    exact h
  · intro h
    exact ⟨topCap_subset h, h⟩

theorem capped_distinct_length {α : Type} [DecidableEq α] (vs : List α) {n : Nat}
    (h : n ≤ (firstDedup vs).length) :
    (firstDedup (vs.filter (fun a => decide (a ∈ topCap vs n)))).length = n := by
  rw [firstDedup_filter]
  exact (filter_mem_topCap_perm vs n).length_eq.trans (topCap_length vs n h)

theorem capped_distinct_mem {α : Type} [DecidableEq α] (vs : List α) (n : Nat) (a : α) :
    a ∈ firstDedup (vs.filter (fun b => decide (b ∈ topCap vs n))) ↔ a ∈ topCap vs n := by
  rw [firstDedup_filter]
  exact (filter_mem_topCap_perm vs n).mem_iff

/-! ### `Except` plumbing -/

theorem exc_bind_ok {ε α β : Type} (a : α) (f : α → Except ε β) :
    (Except.ok a >>= f) = f a := rfl

theorem exc_bind_err {ε α β : Type} (e : ε) (f : α → Except ε β) :
    ((Except.error e : Except ε α) >>= f) = Except.error e := rfl

theorem exc_pure {ε α : Type} (a : α) : (pure a : Except ε α) = Except.ok a := rfl

theorem require_true (s : String) : require true s = Except.ok () := rfl

theorem require_false (s : String) :
    require false s = Except.error ("KeyError: " ++ s) := rfl

theorem mapM_ok_cons_inv {ε α β : Type} {a : α} {l : List α} {f : α → Except ε β}
    {ys : List β} (h : (a :: l).mapM f = .ok ys) :
    ∃ b bs, f a = .ok b ∧ l.mapM f = .ok bs ∧ ys = b :: bs := by
  rw [List.mapM_cons] at h
  cases hfa : f a with
  | error e =>
    rw [hfa, exc_bind_err] at h
    exact absurd h (by simp)
  | ok b =>
    rw [hfa, exc_bind_ok] at h
    cases hm : l.mapM f with
    | error e =>
      rw [hm, exc_bind_err] at h
      exact absurd h (by simp)
    | ok bs =>
      rw [hm, exc_bind_ok, exc_pure] at h
      refine ⟨b, bs, rfl, rfl, ?_⟩
      cases h
      rfl

theorem mapM_nil_inv {ε α β : Type} {f : α → Except ε β} {ys : List β}
    (h : ([] : List α).mapM f = .ok ys) : ys = [] := by
  rw [List.mapM_nil, exc_pure] at h
  cases h
  rfl

theorem mapM_ok_of_all {ε α β : Type} {l : List α} {f : α → Except ε β} {g : α → β}
    (h : ∀ a ∈ l, f a = .ok (g a)) : l.mapM f = .ok (l.map g) := by
  induction l with
  | nil => rw [List.mapM_nil, exc_pure, List.map_nil]
  | cons a as ih =>
    rw [List.mapM_cons, h a (List.mem_cons_self a as), exc_bind_ok,
      ih (fun b hb => h b (List.mem_cons_of_mem _ hb)), exc_bind_ok, exc_pure,
      List.map_cons]

theorem mapM_ok_length {ε α β : Type} {l : List α} {f : α → Except ε β} {ys : List β}
    (h : l.mapM f = .ok ys) : ys.length = l.length := by
  induction l generalizing ys with
  | nil =>
    rw [mapM_nil_inv h]
    rfl
  | cons a as ih =>
    obtain ⟨b, bs, _, hm, rfl⟩ := mapM_ok_cons_inv h
    simp [ih hm]

theorem mapM_ok_mem {ε α β : Type} {l : List α} {f : α → Except ε β} {ys : List β}
    (h : l.mapM f = .ok ys) : ∀ y ∈ ys, ∃ x ∈ l, f x = .ok y := by
  induction l generalizing ys with
  | nil =>
    rw [mapM_nil_inv h]
    intro y hy
    simp at hy
  | cons a as ih =>
    obtain ⟨b, bs, hfa, hm, rfl⟩ := mapM_ok_cons_inv h
    intro y hy
    rcases List.mem_cons.1 hy with rfl | hyt
    · exact ⟨a, List.mem_cons_self _ _, hfa⟩
    · obtain ⟨x, hx, hfx⟩ := ih hm y hyt
      exact ⟨x, List.mem_cons_of_mem _ hx, hfx⟩

/-! ### Evaluating the scorer -/

theorem calc_eval {df : DataFrame} {w : Weights}
    (h1 : df.cols.declNo = true) (h2 : df.cols.lanes = true)
    (h3 : df.cols.specs = true) (h4 : df.cols.exemption = true)
    (h5 : df.cols.originCert = true) (h6 : df.cols.txnType = true)
    (h7 : df.cols.trader = true) :
    calculate_complexity_score df w = .ok (scoreVal df w) := by
  rw [calculate_complexity_score, h1, h2, h3, h4, h5, h6, h7]
  rfl

theorem calc_ok_val {df : DataFrame} {w : Weights} {q : ℚ}
    (h : calculate_complexity_score df w = .ok q) : q = scoreVal df w := by
  cases h1 : df.cols.declNo <;> cases h2 : df.cols.lanes <;>
    cases h3 : df.cols.specs <;> cases h4 : df.cols.exemption <;>
    cases h5 : df.cols.originCert <;> cases h6 : df.cols.txnType <;>
    cases h7 : df.cols.trader <;>
    first
      | (rw [calc_eval h1 h2 h3 h4 h5 h6 h7] at h
         cases h
         rfl)
      | (rw [calculate_complexity_score, h1, h2, h3, h4, h5, h6, h7] at h
         simp [require, exc_bind_err, exc_bind_ok] at h)

theorem groupRows_length (rows : List Row) :
    (groupRows rows).length = nunique (rows.map Row.declNo) := by
  rw [groupRows, List.length_map, (List.perm_insertionSort _ _).length_eq]
  rfl

theorem declScores_length (c : Cols) (w : Weights) (rows : List Row) :
    (declScores c w rows).length = nunique (rows.map Row.declNo) := by
  rw [declScores, List.length_map, groupRows_length]

theorem sortDescBy_perm {β γ : Type} [DecidableEq β] [LinearOrder γ] (key : β → γ)
    (l : List β) : (sortDescBy key l).Perm l := by
  rw [sortDescBy]
  by_cases h : l = []
  · rw [if_pos h]
  · rw [if_neg h]
    exact List.perm_insertionSort _ _

/-! ### Arithmetic facts about `round1`, `pct` and the score -/

theorem round_mono_q {x y : ℚ} (h : x ≤ y) : round x ≤ round y := by
  rw [round_eq, round_eq]
  exact Int.floor_mono (by linarith)

theorem round1_nonneg {q : ℚ} (h : 0 ≤ q) : 0 ≤ round1 q := by
  rw [round1]
  apply div_nonneg _ (by norm_num : (0:ℚ) ≤ 10)
  have h0 : round ((0:ℚ)) ≤ round (q * 10) := round_mono_q (by nlinarith)
  rw [round_zero] at h0
  exact_mod_cast h0

theorem round1_le_100 {q : ℚ} (h : q ≤ 100) : round1 q ≤ 100 := by
  rw [round1, div_le_iff₀ (by norm_num : (0:ℚ) < 10)]
  have h1 : round (q * 10) ≤ round ((1000:ℚ)) := round_mono_q (by nlinarith)
  have h2 : round ((1000:ℚ)) = 1000 := by
    rw [round_eq]
    norm_num
  rw [h2] at h1
  have h3 : ((round (q * 10) : ℤ) : ℚ) ≤ 1000 := by exact_mod_cast h1
  linarith

theorem row_score_nonneg {w : Weights} (h1 : 0 ≤ w.lane_weight)
    (h2 : 0 ≤ w.spec_weight) (h3 : 0 ≤ w.requirement_weight)
    (h4 : 0 ≤ w.exemption_weight) (h5 : 0 ≤ w.fta_weight)
    (h6 : 0 ≤ w.transaction_weight) (h7 : 0 ≤ w.trader_weight) (g : ScoredGroup) :
    0 ≤ row_score w g := by
  rw [row_score]
  have t1 : (0:ℚ) ≤ (g.lanes.getD 0 : ℚ) * w.lane_weight :=
    mul_nonneg (Nat.cast_nonneg _) h1
  have t2 : (0:ℚ) ≤ (g.specs.getD 0 : ℚ) * w.spec_weight :=
    mul_nonneg (Nat.cast_nonneg _) h2
  have t3 : (0:ℚ) ≤ (g.reqDocs : ℚ) * w.requirement_weight :=
    mul_nonneg (Nat.cast_nonneg _) h3
  have t4 : (0:ℚ) ≤ (if hasExemption g.exemption then w.exemption_weight else 0) := by
    split
    · exact h4
    · exact le_refl 0
  have t5 : (0:ℚ) ≤ (if g.originCert = some "Y" then w.fta_weight else 0) := by
    split
    · exact h5
    · exact le_refl 0
  have t6 : (0:ℚ) ≤ (g.txnTypes : ℚ) * w.transaction_weight :=
    mul_nonneg (Nat.cast_nonneg _) h6
  have t7 : (0:ℚ) ≤ (g.traderTypes : ℚ) * w.trader_weight :=
    mul_nonneg (Nat.cast_nonneg _) h7
  linarith

theorem scoreVal_nonneg {w : Weights} (h1 : 0 ≤ w.lane_weight)
    (h2 : 0 ≤ w.spec_weight) (h3 : 0 ≤ w.requirement_weight)
    (h4 : 0 ≤ w.exemption_weight) (h5 : 0 ≤ w.fta_weight)
    (h6 : 0 ≤ w.transaction_weight) (h7 : 0 ≤ w.trader_weight) (df : DataFrame) :
    0 ≤ scoreVal df w := by
  rw [scoreVal]
  split
  · apply div_nonneg
    · apply List.sum_nonneg
      intro x hx
      rw [declScores] at hx
      rcases List.mem_map.1 hx with ⟨p, _, rfl⟩
      exact row_score_nonneg h1 h2 h3 h4 h5 h6 h7 _
    · exact Nat.cast_nonneg _
  · exact le_refl 0

/-! ### Evaluating the rollups when all referenced columns are present -/

theorem authorEntitySummary_eval {df : DataFrame} {w : Weights} {vd : List Row}
    {a : String} (h1 : df.cols.declNo = true) (h2 : df.cols.lanes = true)
    (h3 : df.cols.specs = true) (h4 : df.cols.exemption = true)
    (h5 : df.cols.originCert = true) (h6 : df.cols.txnType = true)
    (h7 : df.cols.trader = true) (h8 : df.cols.importer = true) :
    authorEntitySummary df w vd a = .ok (authorSummaryVal df.cols vd a
      (scoreVal
        { cols := df.cols
          rows := vd.filter (fun r => decide (r.author = some a)) } w)) := by
  rw [authorEntitySummary]
  simp only [h1, h2, h3, h4, h5, h6, h7, h8, require_true, exc_bind_ok]
  rw [@calc_eval { cols := df.cols, rows := vd.filter (fun r => decide (r.author = some a)) }
    w h1 h2 h3 h4 h5 h6 h7, exc_bind_ok]

theorem analyze_by_author_eval {df : DataFrame} {w : Weights}
    (hA : df.cols.author = true) (h1 : df.cols.declNo = true)
    (h2 : df.cols.lanes = true) (h3 : df.cols.specs = true)
    (h4 : df.cols.exemption = true) (h5 : df.cols.originCert = true)
    (h6 : df.cols.txnType = true) (h7 : df.cols.trader = true)
    (h8 : df.cols.importer = true) :
    analyze_by_author df w = .ok (authorTable df w) := by
  rw [analyze_by_author]
  simp only [hA]
  rw [if_neg (by simp)]
  rw [mapM_ok_of_all (fun a _ =>
    @authorEntitySummary_eval df w (authorCapped df) a h1 h2 h3 h4 h5 h6 h7 h8)]
  rw [exc_bind_ok]
  rfl

theorem importerEntitySummary_eval {df : DataFrame} {w : Weights} {vd : List Row}
    {e : String} (h1 : df.cols.declNo = true) (h2 : df.cols.lanes = true)
    (h3 : df.cols.specs = true) (h4 : df.cols.exemption = true)
    (h5 : df.cols.originCert = true) (h6 : df.cols.txnType = true)
    (h7 : df.cols.trader = true) (hA : df.cols.author = true) :
    importerEntitySummary df w vd e = .ok (importerSummaryVal df.cols vd e
      (scoreVal
        { cols := df.cols
          rows := vd.filter (fun r => decide (r.importer = some e)) } w)) := by
  rw [importerEntitySummary]
  simp only [h1, h2, h3, h4, h5, h6, h7, hA, require_true, exc_bind_ok]
  rw [@calc_eval { cols := df.cols, rows := vd.filter (fun r => decide (r.importer = some e)) }
    w h1 h2 h3 h4 h5 h6 h7, exc_bind_ok]

theorem analyze_by_importer_eval {df : DataFrame} {w : Weights}
    (hI : df.cols.importer = true) (h1 : df.cols.declNo = true)
    (h2 : df.cols.lanes = true) (h3 : df.cols.specs = true)
    (h4 : df.cols.exemption = true) (h5 : df.cols.originCert = true)
    (h6 : df.cols.txnType = true) (h7 : df.cols.trader = true)
    (hA : df.cols.author = true) :
    analyze_by_importer df w = .ok (importerTable df w) := by
  rw [analyze_by_importer]
  simp only [hI]
  rw [if_neg (by simp)]
  rw [mapM_ok_of_all (fun e _ =>
    @importerEntitySummary_eval df w (importerCapped df) e h1 h2 h3 h4 h5 h6 h7 hA)]
  rw [exc_bind_ok]
  rfl

theorem forwarderEntitySummary_eval {df : DataFrame} {w : Weights} {vd : List Row}
    {e : String} (h1 : df.cols.declNo = true) (h2 : df.cols.lanes = true)
    (h3 : df.cols.specs = true) (h4 : df.cols.exemption = true)
    (h5 : df.cols.originCert = true) (h6 : df.cols.txnType = true)
    (h7 : df.cols.trader = true) (hA : df.cols.author = true)
    (hI : df.cols.importer = true) :
    forwarderEntitySummary df w vd e = .ok (forwarderSummaryVal df.cols vd e
      (scoreVal
        { cols := df.cols
          rows := vd.filter (fun r => decide (r.forwarder = some e)) } w)) := by
  rw [forwarderEntitySummary]
  simp only [h1, h2, h3, h4, h5, h6, h7, hA, hI, require_true, exc_bind_ok]
  rw [@calc_eval { cols := df.cols, rows := vd.filter (fun r => decide (r.forwarder = some e)) }
    w h1 h2 h3 h4 h5 h6 h7, exc_bind_ok]

theorem analyze_by_forwarder_eval {df : DataFrame} {w : Weights}
    (hF : df.cols.forwarder = true) (h1 : df.cols.declNo = true)
    (h2 : df.cols.lanes = true) (h3 : df.cols.specs = true)
    (h4 : df.cols.exemption = true) (h5 : df.cols.originCert = true)
    (h6 : df.cols.txnType = true) (h7 : df.cols.trader = true)
    (hA : df.cols.author = true) (hI : df.cols.importer = true) :
    analyze_by_forwarder df w = .ok (forwarderTable df w) := by
  rw [analyze_by_forwarder]
  simp only [hF]
  rw [if_neg (by simp)]
  rw [mapM_ok_of_all (fun e _ =>
    @forwarderEntitySummary_eval df w (forwarderCapped df) e h1 h2 h3 h4 h5 h6 h7 hA hI)]
  rw [exc_bind_ok]
  rfl

/-! ### More support lemmas -/

theorem firstSome_isSome {α : Type} {l : List (Option α)}
    (h : ∃ o ∈ l, o.isSome) : (firstSome l).isSome := by
  induction l with
  | nil => simp at h
  | cons o os ih =>
    rw [firstSome, List.findSome?_cons]
    cases o with
    | some a => simp
    | none =>
      rcases h with ⟨o2, ho2, hs⟩
      rcases List.mem_cons.1 ho2 with rfl | ht
      · simp at hs
      · exact ih ⟨o2, ht, hs⟩

theorem nat_sublist_sum_le {l1 l2 : List Nat} (h : l1.Sublist l2) : l1.sum ≤ l2.sum := by
  induction h with
  | slnil => exact le_refl 0
  | cons a h ih =>
    rw [List.sum_cons]
    exact ih.trans (Nat.le_add_left _ _)
  | cons₂ a h ih =>
    rw [List.sum_cons, List.sum_cons]
    exact Nat.add_le_add_left ih _

theorem valueCounts_snd_sum {α : Type} [DecidableEq α] (vs : List α) :
    ((valueCounts vs).map Prod.snd).sum = vs.length := by
  have hp := ((valueCounts_perm vs).map Prod.snd).sum_eq
  rw [hp, List.map_map]
  have hc : (Prod.snd ∘ fun a : α => (a, vs.count a)) = fun a => vs.count a := rfl
  rw [hc]
  exact firstDedup_sum_count vs

theorem mainOf_nil : mainOf [] = "" := rfl

theorem mainOf_spec {vs : List String} (h : vs ≠ []) :
    mainOf vs ∈ vs ∧ ∀ a, vs.count a ≤ vs.count (mainOf vs) := by
  obtain ⟨p, hp, hmem, _, hmax⟩ := valueCounts_head_max h
  rw [mainOf, hp]
  exact ⟨hmem, hmax⟩

theorem filter_isin_map {α : Type} [DecidableEq α] (f : Row → Option α)
    (top : List α) (l : List Row) :
    (l.filter (fun r => isinOpt top (f r))).map f = (l.map f).filter (isinOpt top) := by
  induction l with
  | nil => rfl
  | cons r rs ih =>
    by_cases h : isinOpt top (f r)
    · simpa [h] using ih
    · simpa [h] using ih

theorem nonNulls_filter_isin {α : Type} [DecidableEq α] (top : List α)
    (l : List (Option α)) :
    nonNulls (l.filter (isinOpt top))
      = (nonNulls l).filter (fun a => decide (a ∈ top)) := by
  induction l with
  | nil => rfl
  | cons o os ih =>
    cases o with
    | none => simpa [nonNulls, isinOpt] using ih
    | some a =>
      by_cases hp : a ∈ top
      · simpa [nonNulls, isinOpt, hp] using ih
      · simpa [nonNulls, isinOpt, hp] using ih

theorem cappedEntityFacts {α : Type} [DecidableEq α] (f : Row → Option α)
    (vd : List Row) (n : Nat)
    (h : n ≤ (firstDedup (nonNulls (vd.map f))).length) :
    (firstDedup (nonNulls ((vd.filter (fun r =>
        isinOpt (topCap (nonNulls (vd.map f)) n) (f r))).map f))).length = n
    ∧ ∀ a, (a ∈ firstDedup (nonNulls ((vd.filter (fun r =>
        isinOpt (topCap (nonNulls (vd.map f)) n) (f r))).map f))
        ↔ a ∈ topCap (nonNulls (vd.map f)) n) := by
  rw [filter_isin_map, nonNulls_filter_isin]
  exact ⟨capped_distinct_length _ h, fun a => capped_distinct_mem _ _ _⟩

/-! ### Table shape lemmas -/

theorem authorTable_length (df : DataFrame) (w : Weights) :
    (authorTable df w).length = (authorEntities df).length := by
  rw [authorTable, (sortDescBy_perm _ _).length_eq, List.length_map]

theorem importerTable_length (df : DataFrame) (w : Weights) :
    (importerTable df w).length = (importerEntities df).length := by
  rw [importerTable, (sortDescBy_perm _ _).length_eq, List.length_map]

theorem forwarderTable_length (df : DataFrame) (w : Weights) :
    (forwarderTable df w).length = (forwarderEntities df).length := by
  rw [forwarderTable, (sortDescBy_perm _ _).length_eq, List.length_map]

theorem mem_authorTable_key (df : DataFrame) (w : Weights) (e : String) :
    (∃ s ∈ authorTable df w, s.author = e) ↔ e ∈ authorEntities df := by
  constructor
  · rintro ⟨s, hs, rfl⟩
    rw [authorTable] at hs
    have hm := (sortDescBy_perm _ _).mem_iff.1 hs
    rcases List.mem_map.1 hm with ⟨a, ha, rfl⟩
    exact ha
  · intro he
    refine ⟨authorSummaryVal df.cols (authorCapped df) e
      (scoreVal
        { cols := df.cols
          rows := (authorCapped df).filter (fun r => decide (r.author = some e)) } w), ?_, rfl⟩
    rw [authorTable]
    exact (sortDescBy_perm _ _).mem_iff.2 (List.mem_map.2 ⟨e, he, rfl⟩)

theorem mem_importerTable_key (df : DataFrame) (w : Weights) (e : String) :
    (∃ s ∈ importerTable df w, s.importer = e) ↔ e ∈ importerEntities df := by
  constructor
  · rintro ⟨s, hs, rfl⟩
    rw [importerTable] at hs
    have hm := (sortDescBy_perm _ _).mem_iff.1 hs
    rcases List.mem_map.1 hm with ⟨a, ha, rfl⟩
    exact ha
  · intro he
    refine ⟨importerSummaryVal df.cols (importerCapped df) e
      (scoreVal
        { cols := df.cols
          rows := (importerCapped df).filter (fun r => decide (r.importer = some e)) } w), ?_, rfl⟩
    rw [importerTable]
    exact (sortDescBy_perm _ _).mem_iff.2 (List.mem_map.2 ⟨e, he, rfl⟩)

theorem mem_forwarderTable_key (df : DataFrame) (w : Weights) (e : String) :
    (∃ s ∈ forwarderTable df w, s.forwarder = e) ↔ e ∈ forwarderEntities df := by
  constructor
  · rintro ⟨s, hs, rfl⟩
    rw [forwarderTable] at hs
    have hm := (sortDescBy_perm _ _).mem_iff.1 hs
    rcases List.mem_map.1 hm with ⟨a, ha, rfl⟩
    exact ha
  · intro he
    refine ⟨forwarderSummaryVal df.cols (forwarderCapped df) e
      (scoreVal
        { cols := df.cols
          rows := (forwarderCapped df).filter (fun r => decide (r.forwarder = some e)) } w), ?_, rfl⟩
    rw [forwarderTable]
    exact (sortDescBy_perm _ _).mem_iff.2 (List.mem_map.2 ⟨e, he, rfl⟩)

/-! ## Claim theorems -/

/-- C6: for every subset of rows and every weight record with the
(spec-mandated) nonnegative coefficients, each per-declaration complexity
score is nonnegative, and so is every mean score the scorer returns. -/
theorem C6_complexity_scores_nonneg (df : DataFrame) (w : Weights)
    (h1 : 0 ≤ w.lane_weight) (h2 : 0 ≤ w.spec_weight)
    (h3 : 0 ≤ w.requirement_weight) (h4 : 0 ≤ w.exemption_weight)
    (h5 : 0 ≤ w.fta_weight) (h6 : 0 ≤ w.transaction_weight)
    (h7 : 0 ≤ w.trader_weight) :
    (∀ s ∈ declScores df.cols w (cappedRows df), 0 ≤ s)
    ∧ ∀ q, calculate_complexity_score df w = .ok q → 0 ≤ q := by
  constructor
  · intro s hs
    rw [declScores] at hs
    rcases List.mem_map.1 hs with ⟨p, _, rfl⟩
    exact row_score_nonneg h1 h2 h3 h4 h5 h6 h7 _
  · intro q hq
    rw [calc_ok_val hq]
    exact scoreVal_nonneg h1 h2 h3 h4 h5 h6 h7 df

/-- C6 witness: the scorer output on a concrete two-declaration frame with
the default weights is nonnegative. -/
theorem C6_complexity_scores_nonneg_witness : 0 ≤ scoreVal smallDf defaultWeights :=
  (C6_complexity_scores_nonneg smallDf defaultWeights
    (by norm_num [defaultWeights]) (by norm_num [defaultWeights])
    (by norm_num [defaultWeights]) (by norm_num [defaultWeights])
    (by norm_num [defaultWeights]) (by norm_num [defaultWeights])
    (by norm_num [defaultWeights])).2 (scoreVal smallDf defaultWeights)
    (calc_eval rfl rfl rfl rfl rfl rfl rfl)

/-- C9: the scorer returns the arithmetic mean of the per-declaration scores
over the (scale-guarded) subset — the sum divided by the number of distinct
declaration identifiers — and returns 0 when the subset has no
declarations. -/
theorem C9_scorer_returns_mean (df : DataFrame) (w : Weights)
    (h1 : df.cols.declNo = true) (h2 : df.cols.lanes = true)
    (h3 : df.cols.specs = true) (h4 : df.cols.exemption = true)
    (h5 : df.cols.originCert = true) (h6 : df.cols.txnType = true)
    (h7 : df.cols.trader = true) :
    calculate_complexity_score df w
      = .ok (if nunique ((cappedRows df).map Row.declNo) = 0 then 0
          else (declScores df.cols w (cappedRows df)).sum
            / (nunique ((cappedRows df).map Row.declNo) : ℚ)) := by
  rw [calc_eval h1 h2 h3 h4 h5 h6 h7]
  refine congrArg Except.ok ?_
  simp only [scoreVal]
  rw [declScores_length]
  by_cases hz : nunique ((cappedRows df).map Row.declNo) = 0
  · rw [if_pos hz, hz]
    norm_num
  · rw [if_neg hz, if_pos (Nat.pos_of_ne_zero hz)]

/-- C9 witness: the mean form evaluated at a concrete two-declaration
frame. -/
theorem C9_scorer_returns_mean_witness :
    calculate_complexity_score smallDf defaultWeights
      = .ok (if nunique ((cappedRows smallDf).map Row.declNo) = 0 then 0
          else (declScores smallDf.cols defaultWeights (cappedRows smallDf)).sum
            / (nunique ((cappedRows smallDf).map Row.declNo) : ℚ)) :=
  C9_scorer_returns_mean smallDf defaultWeights rfl rfl rfl rfl rfl rfl rfl

/-- C7: when a subset has more than 5000 distinct declaration identifiers,
the scorer restricts it before grouping to exactly the 5000 identifiers from
the head of the descending `value_counts` ranking: the capped subset has
exactly 5000 distinct identifiers, they are exactly the head of the ranking,
every kept identifier has at least as many raw line rows as every dropped
one, and exactly 5000 declarations are scored. -/
theorem C7_scale_guard_cap (df : DataFrame) (w : Weights)
    (hcap : 5000 < nunique (df.rows.map Row.declNo)) :
    nunique ((cappedRows df).map Row.declNo) = 5000
    ∧ (∀ i, i ∈ firstDedup (nonNulls ((cappedRows df).map Row.declNo))
        ↔ i ∈ topCap (nonNulls (df.rows.map Row.declNo)) 5000)
    ∧ (∀ a ∈ topCap (nonNulls (df.rows.map Row.declNo)) 5000,
        ∀ b ∈ nonNulls (df.rows.map Row.declNo),
          b ∉ topCap (nonNulls (df.rows.map Row.declNo)) 5000 →
          (nonNulls (df.rows.map Row.declNo)).count b
            ≤ (nonNulls (df.rows.map Row.declNo)).count a)
    ∧ (declScores df.cols w (cappedRows df)).length = 5000 := by
  have hle : 5000 ≤ (firstDedup (nonNulls (df.rows.map Row.declNo))).length :=
    le_of_lt hcap
  have hrw : cappedRows df = df.rows.filter (fun r =>
      isinOpt (topCap (nonNulls (df.rows.map Row.declNo)) 5000) r.declNo) := by
    simp only [cappedRows]
    rw [if_pos hcap]
  have hfacts := cappedEntityFacts Row.declNo df.rows 5000 hle
  refine ⟨?_, ?_, ?_, ?_⟩
  · rw [hrw]
    simp only [nunique]
    exact hfacts.1
  · intro i
    rw [hrw]
    exact hfacts.2 i
  · intro a ha b hb hnb
    exact topCap_dominates ha hb hnb
  · rw [declScores_length, hrw]
    simp only [nunique]
    exact hfacts.1

set_option maxRecDepth 40000 in
/-- C7 witness: on a frame with 5001 distinct single-line declarations the
capped subset has exactly 5000 distinct identifiers. -/
theorem C7_scale_guard_cap_witness :
    5000 < nunique (C7df.rows.map Row.declNo)
    ∧ nunique ((cappedRows C7df).map Row.declNo) = 5000 := by
  have hids : C7df.rows.map Row.declNo = (List.range 5001).map some := by
    show ((List.range 5001).map
      (fun i => ({ declNo := some i } : Row))).map Row.declNo = _
    rw [List.map_map]
    exact List.map_congr_left (fun i _ => rfl)
  have hcap : 5000 < nunique (C7df.rows.map Row.declNo) := by
    rw [nunique, hids, nonNulls_map_some,
      firstDedup_eq_self (List.nodup_range 5001), List.length_range]
    norm_num
  exact ⟨hcap, (C7_scale_guard_cap C7df defaultWeights hcap).1⟩

theorem nonNulls_all_none {α : Type} {l : List (Option α)}
    (h : ∀ o ∈ l, o = none) : nonNulls l = [] := by
  induction l with
  | nil => rfl
  | cons o os ih =>
    have ho := h o (List.mem_cons_self _ _)
    subst ho
    simpa [nonNulls] using ih (fun o2 h2 => h o2 (List.mem_cons_of_mem _ h2))

/-- C1 counterexample: a declaration whose transaction-type and
trading-partner cells are all null scores `1` (its lane term only) under the
default weights, not the `1·Wlane + 1·Wtxn + 1·Wtrader = 11` the claim
predicts. -/
theorem C1_counterexample :
    calculate_complexity_score C1df defaultWeights = .ok 1
    ∧ (1 : ℚ) ≠ 1 * defaultWeights.lane_weight
        + 1 * defaultWeights.transaction_weight + 1 * defaultWeights.trader_weight := by
  constructor
  · rw [calc_eval rfl rfl rfl rfl rfl rfl rfl]
    refine congrArg Except.ok ?_
    have h0 : scoreVal C1df defaultWeights
        = (List.sum [row_score defaultWeights (scoredGroup C1df.cols C1df.rows)])
          / (((1:Nat)) : ℚ) := rfl
    have hg : scoredGroup C1df.cols C1df.rows
        = { lanes := some 1, specs := none, exemption := none, originCert := none
            txnTypes := 0, traderTypes := 0, reqDocs := 0 } := rfl
    rw [h0, hg, List.sum_cons, List.sum_nil, add_zero, row_score]
    norm_num [hasExemption, defaultWeights]
    simp
  · norm_num [defaultWeights]

/-- C1 amended: the distinct transaction-type and trading-partner counts are
`nunique` over non-null values, which is 0 — not 1 — for a declaration with
no such data (the `fillna(1)` in the source never fires because `nunique`
never yields a null), so such a declaration contributes `0·Wtxn + 0·Wtrader`
to its score. -/
theorem C1_amended_zero_default (c : Cols) (w : Weights) (g : List Row)
    (ht : ∀ r ∈ g, r.txnType = none) (htr : ∀ r ∈ g, r.trader = none) :
    (scoredGroup c g).txnTypes = 0 ∧ (scoredGroup c g).traderTypes = 0
    ∧ row_score w (scoredGroup c g)
      = ((scoredGroup c g).lanes.getD 0 : ℚ) * w.lane_weight
        + ((scoredGroup c g).specs.getD 0 : ℚ) * w.spec_weight
        + ((scoredGroup c g).reqDocs : ℚ) * w.requirement_weight
        + (if hasExemption (scoredGroup c g).exemption then w.exemption_weight else 0)
        + (if (scoredGroup c g).originCert = some "Y" then w.fta_weight else 0)
        + 0 * w.transaction_weight + 0 * w.trader_weight := by
  have hmap1 : g.map Row.txnType = g.map (fun _ => (none : Option String)) :=
    List.map_congr_left (fun r hr => ht r hr)
  have hmap2 : g.map Row.trader = g.map (fun _ => (none : Option String)) :=
    List.map_congr_left (fun r hr => htr r hr)
  have hnone : ∀ o ∈ g.map (fun _ => (none : Option String)), o = none := by
    intro o ho
    rcases List.mem_map.1 ho with ⟨r, _, rfl⟩
    rfl
  have h1 : (scoredGroup c g).txnTypes = 0 := by
    show (firstDedup (nonNulls (g.map Row.txnType))).length = 0
    rw [hmap1, nonNulls_all_none hnone]
    rfl
  have h2 : (scoredGroup c g).traderTypes = 0 := by
    show (firstDedup (nonNulls (g.map Row.trader))).length = 0
    rw [hmap2, nonNulls_all_none hnone]
    rfl
  refine ⟨h1, h2, ?_⟩
  rw [row_score, h1, h2]
  norm_num

/-- C1 amended witness: the zero contribution at the concrete
one-declaration frame. -/
theorem C1_amended_zero_default_witness :
    (∀ r ∈ C1df.rows, r.txnType = none)
    ∧ (scoredGroup C1df.cols C1df.rows).txnTypes = 0
    ∧ (scoredGroup C1df.cols C1df.rows).traderTypes = 0 :=
  ⟨by decide,
   (C1_amended_zero_default C1df.cols defaultWeights C1df.rows (by decide) (by decide)).1,
   (C1_amended_zero_default C1df.cols defaultWeights C1df.rows (by decide) (by decide)).2.1⟩

/-- C3 counterexample: with every allowlisted column present except
무역거래처상호 (an optional, allowlisted column) and one valid preparer row,
the preparer rollup fails with a `KeyError` raised by the scorer, refuting
"never fails solely because an optional column is missing". -/
theorem C3_counterexample :
    analyze_by_author C3df defaultWeights = .error "KeyError: 무역거래처상호" := by
  decide

/-- C3 amended: the `__init__` column pruning never drops rows and the
three requirement-document indicator columns are genuinely optional to the
scorer — it succeeds whatever their presence — but the scorer requires the
declaration-identifier, lane, spec, exemption, origin-certificate,
transaction-type and trading-partner columns. -/
theorem C3_amended_optional_columns (df : DataFrame) (w : Weights)
    (h1 : df.cols.declNo = true) (h2 : df.cols.lanes = true)
    (h3 : df.cols.specs = true) (h4 : df.cols.exemption = true)
    (h5 : df.cols.originCert = true) (h6 : df.cols.txnType = true)
    (h7 : df.cols.trader = true) :
    (∃ q, calculate_complexity_score df w = .ok q)
    ∧ (essentialPrune df).rows.length = df.rows.length := by
  refine ⟨⟨scoreVal df w, calc_eval h1 h2 h3 h4 h5 h6 h7⟩, ?_⟩
  rw [essentialPrune]
  split
  · rfl
  · rfl

/-- C3 amended witness: the scorer succeeds on a frame whose three
requirement-document columns are all absent. -/
theorem C3_amended_optional_columns_witness :
    (∃ q, calculate_complexity_score C3wdf defaultWeights = .ok q)
    ∧ (essentialPrune C3wdf).rows.length = C3wdf.rows.length :=
  C3_amended_optional_columns C3wdf defaultWeights rfl rfl rfl rfl rfl rfl rfl

/-- C8: whenever a rollup dimension has more distinct entities than its cap
(50 preparers, 100 importers, 50 forwarders), the rollup output has exactly
the cap's number of summary rows; the reported entities are exactly the head
of the descending raw-row-count ranking, entities outside it are absent from
the output, and every kept entity has at least as many raw rows as every
omitted one. -/
theorem C8_entity_caps (df : DataFrame) (w : Weights)
    (hA : df.cols.author = true) (hI : df.cols.importer = true)
    (hF : df.cols.forwarder = true) (h1 : df.cols.declNo = true)
    (h2 : df.cols.lanes = true) (h3 : df.cols.specs = true)
    (h4 : df.cols.exemption = true) (h5 : df.cols.originCert = true)
    (h6 : df.cols.txnType = true) (h7 : df.cols.trader = true) :
    (50 < (firstDedup (nonNulls ((authorValidRows df).map Row.author))).length →
      analyze_by_author df w = .ok (authorTable df w)
      ∧ (authorTable df w).length = 50
      ∧ (∀ e, (∃ s ∈ authorTable df w, s.author = e)
          ↔ e ∈ topCap (nonNulls ((authorValidRows df).map Row.author)) 50)
      ∧ ∀ a ∈ topCap (nonNulls ((authorValidRows df).map Row.author)) 50,
          ∀ b ∈ nonNulls ((authorValidRows df).map Row.author),
            b ∉ topCap (nonNulls ((authorValidRows df).map Row.author)) 50 →
            (nonNulls ((authorValidRows df).map Row.author)).count b
              ≤ (nonNulls ((authorValidRows df).map Row.author)).count a)
    ∧ (100 < (firstDedup (nonNulls ((importerValidRows df).map Row.importer))).length →
      analyze_by_importer df w = .ok (importerTable df w)
      ∧ (importerTable df w).length = 100
      ∧ (∀ e, (∃ s ∈ importerTable df w, s.importer = e)
          ↔ e ∈ topCap (nonNulls ((importerValidRows df).map Row.importer)) 100)
      ∧ ∀ a ∈ topCap (nonNulls ((importerValidRows df).map Row.importer)) 100,
          ∀ b ∈ nonNulls ((importerValidRows df).map Row.importer),
            b ∉ topCap (nonNulls ((importerValidRows df).map Row.importer)) 100 →
            (nonNulls ((importerValidRows df).map Row.importer)).count b
              ≤ (nonNulls ((importerValidRows df).map Row.importer)).count a)
    ∧ (50 < (firstDedup (nonNulls ((forwarderValidRows df).map Row.forwarder))).length →
      analyze_by_forwarder df w = .ok (forwarderTable df w)
      ∧ (forwarderTable df w).length = 50
      ∧ (∀ e, (∃ s ∈ forwarderTable df w, s.forwarder = e)
          ↔ e ∈ topCap (nonNulls ((forwarderValidRows df).map Row.forwarder)) 50)
      ∧ ∀ a ∈ topCap (nonNulls ((forwarderValidRows df).map Row.forwarder)) 50,
          ∀ b ∈ nonNulls ((forwarderValidRows df).map Row.forwarder),
            b ∉ topCap (nonNulls ((forwarderValidRows df).map Row.forwarder)) 50 →
            (nonNulls ((forwarderValidRows df).map Row.forwarder)).count b
              ≤ (nonNulls ((forwarderValidRows df).map Row.forwarder)).count a) := by
  refine ⟨fun hcap => ?_, fun hcap => ?_, fun hcap => ?_⟩
  · have hcapEq : authorCapped df = (authorValidRows df).filter (fun r =>
        isinOpt (topCap (nonNulls ((authorValidRows df).map Row.author)) 50) r.author) := by
      simp only [authorCapped]
      rw [if_pos hcap]
    have hfacts := cappedEntityFacts Row.author (authorValidRows df) 50 (le_of_lt hcap)
    have hlen : (authorTable df w).length = 50 := by
      rw [authorTable_length, authorEntities, hcapEq]
      exact hfacts.1
    refine ⟨analyze_by_author_eval hA h1 h2 h3 h4 h5 h6 h7 hI, hlen, ?_,
      fun a ha b hb hnb => topCap_dominates ha hb hnb⟩
    intro e
    rw [mem_authorTable_key, authorEntities, hcapEq]
    exact hfacts.2 e
  · have hcapEq : importerCapped df = (importerValidRows df).filter (fun r =>
        isinOpt (topCap (nonNulls ((importerValidRows df).map Row.importer)) 100) r.importer) := by
      simp only [importerCapped]
      rw [if_pos hcap]
    have hfacts := cappedEntityFacts Row.importer (importerValidRows df) 100 (le_of_lt hcap)
    have hlen : (importerTable df w).length = 100 := by
      rw [importerTable_length, importerEntities, hcapEq]
      exact hfacts.1
    refine ⟨analyze_by_importer_eval hI h1 h2 h3 h4 h5 h6 h7 hA, hlen, ?_,
      fun a ha b hb hnb => topCap_dominates ha hb hnb⟩
    intro e
    rw [mem_importerTable_key, importerEntities, hcapEq]
    exact hfacts.2 e
  · have hcapEq : forwarderCapped df = (forwarderValidRows df).filter (fun r =>
        isinOpt (topCap (nonNulls ((forwarderValidRows df).map Row.forwarder)) 50) r.forwarder) := by
      simp only [forwarderCapped]
      rw [if_pos hcap]
    have hfacts := cappedEntityFacts Row.forwarder (forwarderValidRows df) 50 (le_of_lt hcap)
    have hlen : (forwarderTable df w).length = 50 := by
      rw [forwarderTable_length, forwarderEntities, hcapEq]
      exact hfacts.1
    refine ⟨analyze_by_forwarder_eval hF h1 h2 h3 h4 h5 h6 h7 hA hI, hlen, ?_,
      fun a ha b hb hnb => topCap_dominates ha hb hnb⟩
    intro e
    rw [mem_forwarderTable_key, forwarderEntities, hcapEq]
    exact hfacts.2 e

set_option maxRecDepth 40000 in
/-- C8 witness: entity caps observed on a concrete frame with 51 distinct
preparers, 101 distinct importers and 51 distinct forwarders. -/
theorem C8_entity_caps_witness :
    (50 < (firstDedup (nonNulls ((authorValidRows C8df).map Row.author))).length
      ∧ (authorTable C8df defaultWeights).length = 50)
    ∧ (100 < (firstDedup (nonNulls ((importerValidRows C8df).map Row.importer))).length
      ∧ (importerTable C8df defaultWeights).length = 100)
    ∧ (50 < (firstDedup (nonNulls ((forwarderValidRows C8df).map Row.forwarder))).length
      ∧ (forwarderTable C8df defaultWeights).length = 50) := by
  have hA : 50 < (firstDedup (nonNulls ((authorValidRows C8df).map Row.author))).length := by
    decide
  have hI : 100 < (firstDedup (nonNulls ((importerValidRows C8df).map Row.importer))).length := by
    decide
  have hF : 50 < (firstDedup (nonNulls ((forwarderValidRows C8df).map Row.forwarder))).length := by
    decide
  have hth := C8_entity_caps C8df defaultWeights rfl rfl rfl rfl rfl rfl rfl rfl rfl rfl
  exact ⟨⟨hA, (hth.1 hA).2.1⟩, ⟨hI, (hth.2.1 hI).2.1⟩, ⟨hF, (hth.2.2 hF).2.1⟩⟩

/-- C5 counterexample: for the importer with declaration 1 split over three
lines by preparer A and declarations 2 and 3 (one line each) by preparer B,
the rollup reports A as primary preparer — the raw-row mode — although over
the declaration-deduplicated rows B occurs twice and A once, so the claimed
deduplicated ranking would report B. -/
theorem C5_counterexample :
    (analyze_by_importer C5df defaultWeights).toOption.map
        (fun l => l.map ImporterSummary.mainAuthor) = some ["A"]
    ∧ (nonNulls ((declGrouped C5df.rows).map Row.author)).count "B" = 2
    ∧ (nonNulls ((declGrouped C5df.rows).map Row.author)).count "A" = 1 := by
  decide

theorem importerSummaryVal_importer (c : Cols) (vd : List Row) (e : String)
    (score : ℚ) : (importerSummaryVal c vd e score).importer = e := rfl

theorem importerSummaryVal_mainAuthor (c : Cols) (vd : List Row) (e : String)
    (score : ℚ) : (importerSummaryVal c vd e score).mainAuthor
      = mainOf (nonNulls ((vd.filter
          (fun r => decide (r.importer = some e))).map Row.author)) := rfl

theorem forwarderSummaryVal_forwarder (c : Cols) (vd : List Row) (e : String)
    (score : ℚ) : (forwarderSummaryVal c vd e score).forwarder = e := rfl

theorem forwarderSummaryVal_mainAuthor (c : Cols) (vd : List Row) (e : String)
    (score : ℚ) : (forwarderSummaryVal c vd e score).mainAuthor
      = mainOf (forwarderDedupAuthors (vd.filter
          (fun r => decide (r.forwarder = some e)))) := rfl

set_option maxHeartbeats 1000000 in
/-- C5 amended: the primary preparer is a most frequent preparer — over the
declaration-deduplicated rows in the forwarder rollup, but over the *raw*
line rows in the importer rollup (the source ranks
`importer_data['작성자']` without deduplication). -/
theorem C5_amended_primary_preparer (df : DataFrame) (w : Weights)
    (hI : df.cols.importer = true) (hF : df.cols.forwarder = true)
    (hA : df.cols.author = true) (h1 : df.cols.declNo = true)
    (h2 : df.cols.lanes = true) (h3 : df.cols.specs = true)
    (h4 : df.cols.exemption = true) (h5 : df.cols.originCert = true)
    (h6 : df.cols.txnType = true) (h7 : df.cols.trader = true) :
    (analyze_by_importer df w = .ok (importerTable df w)
      ∧ ∀ s ∈ importerTable df w,
        ((nonNulls (((importerCapped df).filter
            (fun r => decide (r.importer = some s.importer))).map Row.author)) = []
          → s.mainAuthor = "")
        ∧ ((nonNulls (((importerCapped df).filter
            (fun r => decide (r.importer = some s.importer))).map Row.author)) ≠ []
          → s.mainAuthor ∈ nonNulls (((importerCapped df).filter
              (fun r => decide (r.importer = some s.importer))).map Row.author)
            ∧ ∀ a, (nonNulls (((importerCapped df).filter
                (fun r => decide (r.importer = some s.importer))).map Row.author)).count a
              ≤ (nonNulls (((importerCapped df).filter
                (fun r => decide (r.importer = some s.importer))).map Row.author)).count
                  s.mainAuthor))
    ∧ (analyze_by_forwarder df w = .ok (forwarderTable df w)
      ∧ ∀ s ∈ forwarderTable df w,
        (forwarderDedupAuthors ((forwarderCapped df).filter
            (fun r => decide (r.forwarder = some s.forwarder))) = []
          → s.mainAuthor = "")
        ∧ (forwarderDedupAuthors ((forwarderCapped df).filter
            (fun r => decide (r.forwarder = some s.forwarder))) ≠ []
          → s.mainAuthor ∈ forwarderDedupAuthors ((forwarderCapped df).filter
              (fun r => decide (r.forwarder = some s.forwarder)))
            ∧ ∀ a, (forwarderDedupAuthors ((forwarderCapped df).filter
                (fun r => decide (r.forwarder = some s.forwarder)))).count a
              ≤ (forwarderDedupAuthors ((forwarderCapped df).filter
                (fun r => decide (r.forwarder = some s.forwarder)))).count s.mainAuthor)) := by
  constructor
  · refine ⟨analyze_by_importer_eval hI h1 h2 h3 h4 h5 h6 h7 hA, ?_⟩
    intro s hs
    rw [importerTable] at hs
    have hm := (sortDescBy_perm _ _).mem_iff.1 hs
    rcases List.mem_map.1 hm with ⟨e, _, rfl⟩
    rw [importerSummaryVal_importer, importerSummaryVal_mainAuthor]
    refine ⟨fun hnil => ?_, fun hne => ⟨(mainOf_spec hne).1, (mainOf_spec hne).2⟩⟩
    rw [hnil]
    rfl
  · refine ⟨analyze_by_forwarder_eval hF h1 h2 h3 h4 h5 h6 h7 hA hI, ?_⟩
    intro s hs
    rw [forwarderTable] at hs
    have hm := (sortDescBy_perm _ _).mem_iff.1 hs
    rcases List.mem_map.1 hm with ⟨e, _, rfl⟩
    rw [forwarderSummaryVal_forwarder, forwarderSummaryVal_mainAuthor]
    refine ⟨fun hnil => ?_, fun hne => ⟨(mainOf_spec hne).1, (mainOf_spec hne).2⟩⟩
    rw [hnil]
    rfl

/-- C5 amended witness: both rollups succeed at the concrete five-line
frame. -/
theorem C5_amended_primary_preparer_witness :
    analyze_by_importer C5df defaultWeights = .ok (importerTable C5df defaultWeights)
    ∧ analyze_by_forwarder C5df defaultWeights = .ok (forwarderTable C5df defaultWeights) :=
  ⟨(C5_amended_primary_preparer C5df defaultWeights rfl rfl rfl rfl rfl rfl rfl rfl rfl
      rfl).1.1,
   (C5_amended_primary_preparer C5df defaultWeights rfl rfl rfl rfl rfl rfl rfl rfl rfl
      rfl).2.1⟩

/-- C4 counterexample: with the 작성자 column entirely absent but valid
importer data present, the importer rollup does not proceed unaffected — it
fails with a `KeyError` at its primary-preparer step. -/
theorem C4_counterexample :
    analyze_by_importer C4df defaultWeights = .error "KeyError: 작성자" := by
  decide

/-- C4 amended: a dimension whose own grouping column is absent returns an
empty table (and the inspection classifier an empty table with empty stats);
the other dimensions are not in general unaffected, since the importer and
forwarder rollups read the preparer column and the preparer and forwarder
rollups read the importer column. -/
theorem C4_amended_absent_grouping_column (df : DataFrame) (w : Weights) :
    (df.cols.author = false → analyze_by_author df w = .ok [])
    ∧ (df.cols.importer = false → analyze_by_importer df w = .ok [])
    ∧ (df.cols.forwarder = false → analyze_by_forwarder df w = .ok [])
    ∧ (df.cols.csInspect = false → analyze_cs_inspection df = .ok ([], none)) := by
  refine ⟨fun h => ?_, fun h => ?_, fun h => ?_, fun h => ?_⟩
  · rw [analyze_by_author, if_pos h]
  · rw [analyze_by_importer, if_pos h]
  · rw [analyze_by_forwarder, if_pos h]
  · rw [analyze_cs_inspection, if_pos h]

/-- C4 amended witness: the four empty results on a frame missing all four
grouping columns. -/
theorem C4_amended_absent_grouping_column_witness :
    analyze_by_author C4wdf defaultWeights = .ok []
    ∧ analyze_by_importer C4wdf defaultWeights = .ok []
    ∧ analyze_by_forwarder C4wdf defaultWeights = .ok []
    ∧ analyze_cs_inspection C4wdf = .ok ([], none) :=
  ⟨(C4_amended_absent_grouping_column C4wdf defaultWeights).1 rfl,
   (C4_amended_absent_grouping_column C4wdf defaultWeights).2.1 rfl,
   (C4_amended_absent_grouping_column C4wdf defaultWeights).2.2.1 rfl,
   (C4_amended_absent_grouping_column C4wdf defaultWeights).2.2.2 rfl⟩

theorem declGrouped_csInspect_isSome (rows : List Row)
    (hall : ∀ r ∈ rows, r.csInspect.isSome) :
    ∀ x ∈ declGrouped rows, x.csInspect.isSome := by
  intro x hx
  rw [declGrouped] at hx
  rcases List.mem_map.1 hx with ⟨p, hp, rfl⟩
  rw [groupRows] at hp
  rcases List.mem_map.1 hp with ⟨i, hi, rfl⟩
  show (firstSome ((rows.filter
    (fun r => decide (r.declNo = some i))).map Row.csInspect)).isSome
  have hi2 : i ∈ firstDedup (nonNulls (rows.map Row.declNo)) :=
    (List.perm_insertionSort _ _).mem_iff.1 hi
  have hi3 : some i ∈ rows.map Row.declNo := mem_nonNulls.1 (mem_firstDedup.1 hi2)
  rcases List.mem_map.1 hi3 with ⟨r, hr, hre⟩
  have hrg : r ∈ rows.filter (fun r => decide (r.declNo = some i)) :=
    List.mem_filter.2 ⟨hr, by simp [hre]⟩
  exact firstSome_isSome ⟨r.csInspect, List.mem_map.2 ⟨r, hrg, rfl⟩, hall r hr⟩

theorem rate_le_100 {a n : ℕ} (h : a ≤ n) (hn : 0 < n) :
    ((a : ℚ)) / ((n : ℚ)) * 100 ≤ 100 := by
  have hq : (a : ℚ) ≤ (n : ℚ) := by exact_mod_cast h
  have hnq : (0 : ℚ) < (n : ℚ) := by exact_mod_cast hn
  rw [div_mul_eq_mul_div, div_le_iff₀ hnq]
  nlinarith

/-- C10: the inspection classification's per-code declaration counts sum
exactly to the total-declarations stat; that total is the number of distinct
identifiers among rows bearing an inspection code, each of which comes from
at least one row with a non-null code; and the no-inspection rate never
exceeds 100. -/
theorem C10_inspection_invariants (df : DataFrame)
    (hc : df.cols.csInspect = true) (hd : df.cols.declNo = true) :
    ∃ tbl stats, analyze_cs_inspection df = .ok (tbl, some stats)
      ∧ (tbl.map CsRow.declCount).sum = stats.totalDecls
      ∧ stats.totalDecls = nunique ((csValidRows df).map Row.declNo)
      ∧ (∀ i ∈ firstDedup (nonNulls ((csValidRows df).map Row.declNo)),
          ∃ r ∈ df.rows, r.declNo = some i ∧ r.csInspect.isSome)
      ∧ stats.noInspectionRate ≤ 100 := by
  have hall : ∀ r ∈ csValidRows df, r.csInspect.isSome := by
    intro r hr
    exact (List.mem_filter.1 hr).2
  have hsome : ∀ o ∈ (declGrouped (csValidRows df)).map Row.csInspect, o.isSome := by
    intro o ho
    rcases List.mem_map.1 ho with ⟨x, hx, rfl⟩
    exact declGrouped_csInspect_isSome (csValidRows df) hall x hx
  have hcodes : (nonNulls ((declGrouped (csValidRows df)).map Row.csInspect)).length
      = (declGrouped (csValidRows df)).length := by
    rw [nonNulls_length_all_some hsome, List.length_map]
  have hlen : (declGrouped (csValidRows df)).length
      = nunique ((csValidRows df).map Row.declNo) := by
    rw [declGrouped, List.length_map, groupRows_length]
  have hsub : (((valueCounts (nonNulls ((declGrouped (csValidRows df)).map
        Row.csInspect))).filter (fun p => decide (p.1 = "N"))).map Prod.snd).sum
      ≤ (declGrouped (csValidRows df)).length := by
    refine le_trans (nat_sublist_sum_le ((List.filter_sublist _).map Prod.snd))
      (le_of_eq ?_)
    rw [valueCounts_snd_sum, hcodes]
  have heval : analyze_cs_inspection df = .ok
      ((valueCounts (nonNulls ((declGrouped (csValidRows df)).map Row.csInspect))).map
          (fun p => { code := p.1, declCount := p.2, label := inspection_label p.1 }),
        some
          { totalDecls := (declGrouped (csValidRows df)).length
            codeKinds := (valueCounts (nonNulls ((declGrouped (csValidRows df)).map
              Row.csInspect))).length
            topLabel := ((((valueCounts (nonNulls ((declGrouped (csValidRows df)).map
                Row.csInspect))).map (fun p =>
                  ({ code := p.1, declCount := p.2,
                     label := inspection_label p.1 } : CsRow))).head?.map
                  CsRow.label)).getD ""
            noInspectionRate :=
              if 0 < (declGrouped (csValidRows df)).length then
                round1 (((((valueCounts (nonNulls ((declGrouped (csValidRows df)).map
                    Row.csInspect))).filter (fun p =>
                      decide (p.1 = "N"))).map Prod.snd).sum : ℚ)
                  / ((declGrouped (csValidRows df)).length : ℚ) * 100)
              else 0 }) := by
    rw [analyze_cs_inspection, if_neg (by simp [hc]), hd]
    rfl
  refine ⟨_, _, heval, ?_, hlen, ?_, ?_⟩
  · rw [List.map_map]
    have hcomp : (CsRow.declCount ∘ fun p : String × Nat =>
        ({ code := p.1, declCount := p.2, label := inspection_label p.1 } : CsRow))
        = Prod.snd := rfl
    rw [hcomp, valueCounts_snd_sum, hcodes]
  · intro i hi
    have hi2 : some i ∈ (csValidRows df).map Row.declNo :=
      mem_nonNulls.1 (mem_firstDedup.1 hi)
    rcases List.mem_map.1 hi2 with ⟨r, hr, hre⟩
    have hrm := List.mem_filter.1 hr
    exact ⟨r, hrm.1, hre, hrm.2⟩
  · show (if 0 < (declGrouped (csValidRows df)).length then
        round1 (((((valueCounts (nonNulls ((declGrouped (csValidRows df)).map
            Row.csInspect))).filter (fun p =>
              decide (p.1 = "N"))).map Prod.snd).sum : ℚ)
          / ((declGrouped (csValidRows df)).length : ℚ) * 100)
      else 0) ≤ 100
    split
    · next hpos =>
        apply round1_le_100
        exact rate_le_100 hsub hpos
    · norm_num

/-- C10 witness: the invariants at a concrete one-declaration frame. -/
theorem C10_inspection_invariants_witness :
    ∃ tbl stats, analyze_cs_inspection C10df = .ok (tbl, some stats)
      ∧ (tbl.map CsRow.declCount).sum = stats.totalDecls
      ∧ stats.totalDecls = nunique ((csValidRows C10df).map Row.declNo)
      ∧ (∀ i ∈ firstDedup (nonNulls ((csValidRows C10df).map Row.declNo)),
          ∃ r ∈ C10df.rows, r.declNo = some i ∧ r.csInspect.isSome)
      ∧ stats.noInspectionRate ≤ 100 :=
  C10_inspection_invariants C10df rfl rfl

/-- C2: evaluating the normalizer at a frame that has a parseable 신고일자
column but no 수리일자 column shows the code raising instead of selecting the
next candidate column — the debug print of the 신고일자 branch reads the
local `total_count`, which is assigned only inside the 수리일자 branch. -/
theorem C2_name_error_on_missing_first_column :
    prepare_data C2df
      = .error "NameError: total_count referenced before assignment" := by
  decide
